import Mathlib

/-!
Verification of the POS / Phrases / Clauses trainer backend (`server.py`).

The parsed sentence produced by the spaCy oracle is modelled as a list of
tokens; a token's index is its position in that list, and `head` is the
index of the syntactic head (the sentence root points to itself, as in
spaCy).  All classifier helpers and the `analyze` endpoint body are
translated directly from the source.
-/

set_option maxRecDepth 8000

namespace PosTrainer

/-- A parsed token as exposed by the oracle.  `lemma_` models spaCy's
`tok.lemma_`, `morphVerbForm` models `tok.morph.get("VerbForm")` (a list of
feature values, empty when the feature is absent), `entType` models
`tok.ent_type_` (empty string when the token is not part of an entity). -/
structure Token where
  text : String
  lemma_ : String
  pos : String
  tag : String
  dep : String
  head : Nat
  morphVerbForm : List String
  entType : String
deriving Repr, DecidableEq, Inhabited

/-- Python's `str.lower()`, implemented over the character list so that it
evaluates by kernel reduction (ASCII case mapping, which covers every
lexical set this program consults). -/
def str_lower (s : String) : String := String.mk (s.data.map Char.toLower)

/-- Python's `str.startswith`, implemented over the character list so that
it evaluates by kernel reduction. -/
def str_startsWith (s pre : String) : Bool := pre.data.isPrefixOf s.data

/-- `LOCAL_SENTENCES` from the source. -/
def LOCAL_SENTENCES : List String :=
  ["Wow! That absolutely crushed the previous record.",
   "She checked out of the hotel early this morning.",
   "The committee has been reviewing the proposal for weeks.",
   "Those quickly written notes were surprisingly clear.",
   "After the storm, the lights finally came back on.",
   "I will look into the issue tomorrow.",
   "The red car in the driveway belongs to my neighbor.",
   "Because it was raining, we decided to stay inside.",
   "Please hand in your assignments by Friday.",
   "They might have been waiting for the bus."]

/-- `LINKING_LEMMAS` from the source. -/
def LINKING_LEMMAS : List String :=
  ["be", "seem", "become", "appear", "feel", "look", "sound", "remain",
   "stay", "grow", "turn", "smell", "taste"]

/-- `MODALS` from the source. -/
def MODALS : List String :=
  ["can", "could", "may", "might", "must", "shall", "should", "will", "would"]

/-- `PARTICLE_POS` from the source. -/
def PARTICLE_POS : List String := ["PART", "ADP", "ADV"]

/-- `is_aux` from the source: coarse tag AUX, fine tag MD, or lemma
be/have/do. -/
def is_aux (t : Token) : Bool :=
  t.pos == "AUX" || t.tag == "MD" || ["be", "have", "do"].contains t.lemma_

/-- `aux_role` from the source: the `if` chain over the auxiliary token and
its head token. -/
def aux_role (auxTok headTok : Token) : String :=
  if auxTok.tag == "MD" || MODALS.contains auxTok.lemma_ then "modal"
  else if auxTok.lemma_ == "have" then "perfect"
  else if auxTok.lemma_ == "be" && headTok.tag == "VBG" then "progressive"
  else if auxTok.lemma_ == "be" && headTok.tag == "VBN" then "passive"
  else if auxTok.lemma_ == "do" then "do-support"
  else "other"

/-- spaCy's `tok.children`: the tokens (with their indices) whose head is
the token at index `k`, excluding the token itself (the root is not its own
child), in document order. -/
def children (doc : List Token) (k : Nat) : List (Nat × Token) :=
  doc.enum.filter (fun p => p.1 != k && p.2.head == k)

/-- `collect_aux_chain` from the source: children attached via `aux` or
`auxpass`, plus every token headed by the verb whose fine tag is `MD`
(the loop over `tok.doc`, which also admits the token itself when it is its
own head).  `sorted(set(auxes), key=i)` is modelled by one pass over the
document in index order, keeping the collected indices, which yields the
same deduplicated, index-sorted list. -/
def collect_aux_chain (doc : List Token) (k : Nat) : List String :=
  let auxes := (children doc k).filter
    (fun p => p.2.dep == "aux" || p.2.dep == "auxpass")
  let md_before := doc.enum.filter (fun p => p.2.head == k && p.2.tag == "MD")
  let idxs := (auxes ++ md_before).map Prod.fst
  (doc.enum.filter (fun p => idxs.contains p.1)).map (fun p => p.2.text)

/-- `find_phrasal_particles` from the source: children with relation
`prt`/`prep`/`advmod`, coarse tag in `PARTICLE_POS`, strictly to the right
of the verb. -/
def find_phrasal_particles (doc : List Token) (k : Nat) : List String :=
  ((children doc k).filter (fun p =>
      ["prt", "prep", "advmod"].contains p.2.dep
        && PARTICLE_POS.contains p.2.pos
        && decide (k < p.1))).map (fun p => p.2.text)

/-- `has_object` from the source: a child with relation
dobj/obj/attr/ccomp/xcomp/oprd, or a passive subject (`nsubjpass`) as
object proxy. -/
def has_object (doc : List Token) (k : Nat) : Bool :=
  (children doc k).any (fun p =>
      ["dobj", "obj", "attr", "ccomp", "xcomp", "oprd"].contains p.2.dep)
    || (children doc k).any (fun p => p.2.dep == "nsubjpass")

/-- Noun classification record (`noun_info` output). -/
structure NounRecord where
  i : Nat
  text : String
  lemma_ : String
  type : String
  concreteness : String
  countability : String
  collective : Bool
  possessive : Bool
  why : List String
deriving Repr, DecidableEq

/-- `noun_info` from the source.  The `why` list always receives the
proper/common line first, so the Python `why or [...]` fallback never
fires and is dropped. -/
def noun_info (doc : List Token) (k : Nat) (t : Token) : NounRecord :=
  let is_proper := t.tag == "NNP" || t.tag == "NNPS"
  let is_plural := t.tag == "NNS" || t.tag == "NNPS"
  let possessive :=
    (children doc k).any (fun p => p.2.dep == "case" && p.2.text == "\x27s")
      || t.dep == "poss"
  let concreteness :=
    if t.entType != "" || str_startsWith t.tag "NN" then "concrete" else "abstract"
  let countability :=
    if is_plural || ["NN", "NNS", "NNP", "NNPS"].contains t.tag then "count"
    else "noncount"
  let collective :=
    ["team", "committee", "group", "audience", "family", "staff", "class",
     "crew", "troop", "jury"].contains (str_lower t.lemma_)
  let why :=
    (if is_proper then ["Proper: capitalized name or title form."]
     else ["Common: general category word."])
      ++ (if possessive then ["Possessive form detected."] else [])
      ++ (if collective then ["Collective noun (group as a unit)."] else [])
  { i := k, text := t.text, lemma_ := t.lemma_,
    type := if is_proper then "proper" else "common",
    concreteness := concreteness, countability := countability,
    collective := collective, possessive := possessive, why := why }

/-- Pronoun classification record (`pronoun_info` output). -/
structure PronounRecord where
  i : Nat
  text : String
  lemma_ : String
  type : String
  case : String
  possessive_form : Option String
  reflexive_or_intensive : Bool
  why : List String
deriving Repr, DecidableEq

/-- `pronoun_info` from the source: the lowercased surface text is matched
against the fixed lexical sets in order.  (The source also defines a
`reciprocal` set that no branch consults; it is omitted.) -/
def pronoun_info (k : Nat) (t : Token) : PronounRecord :=
  let txt := str_lower t.text
  if ["i", "we", "you", "he", "she", "they", "it"].contains txt then
    { i := k, text := t.text, lemma_ := t.lemma_, type := "personal",
      case := "subjective", possessive_form := none,
      reflexive_or_intensive := false,
      why := ["Personal pronoun (subjective case)."] }
  else if ["me", "us", "you", "him", "her", "them", "it"].contains txt then
    { i := k, text := t.text, lemma_ := t.lemma_, type := "personal",
      case := "objective", possessive_form := none,
      reflexive_or_intensive := false,
      why := ["Personal pronoun (objective case)."] }
  else if ["mine", "yours", "his", "hers", "ours", "theirs"].contains txt then
    { i := k, text := t.text, lemma_ := t.lemma_, type := "possessive",
      case := "(n/a)", possessive_form := some "absolute",
      reflexive_or_intensive := false,
      why := ["Possessive pronoun (absolute)."] }
  else if ["my", "your", "his", "her", "our", "their", "its"].contains txt then
    { i := k, text := t.text, lemma_ := t.lemma_, type := "possessive",
      case := "(n/a)", possessive_form := some "dependent",
      reflexive_or_intensive := false,
      why := ["Possessive determiner (dependent)."] }
  else if ["this", "that", "these", "those"].contains txt then
    { i := k, text := t.text, lemma_ := t.lemma_, type := "demonstrative",
      case := "(n/a)", possessive_form := none,
      reflexive_or_intensive := false, why := ["Demonstrative pronoun."] }
  else if ["who", "whom", "whose", "which", "what"].contains txt
      && ["attr", "pobj", "dobj", "nsubj"].contains t.dep then
    { i := k, text := t.text, lemma_ := t.lemma_, type := "interrogative",
      case := "(n/a)", possessive_form := none,
      reflexive_or_intensive := false, why := ["Interrogative pronoun."] }
  else if ["who", "whom", "whose", "which", "that"].contains txt
      && ["relcl", "nsubj", "dobj", "pobj", "attr", "relcl"].contains t.dep then
    { i := k, text := t.text, lemma_ := t.lemma_, type := "relative",
      case := "(n/a)", possessive_form := none,
      reflexive_or_intensive := false,
      why := ["Relative pronoun within a clause."] }
  else if ["myself", "yourself", "himself", "herself", "itself", "ourselves",
           "yourselves", "themselves"].contains txt then
    { i := k, text := t.text, lemma_ := t.lemma_, type := "reflexive",
      case := "(n/a)", possessive_form := none,
      reflexive_or_intensive := true,
      why := ["Reflexive/Intensive pronoun."] }
  else
    { i := k, text := t.text, lemma_ := t.lemma_,
      type := if t.tag == "PRP$" || t.tag == "PRP" then "indefinite"
              else "other",
      case := "(n/a)", possessive_form := none,
      reflexive_or_intensive := false,
      why := ["Pronoun identified by POS tag and context."] }

/-- Adjective classification record (`adjective_info` output). -/
structure AdjRecord where
  i : Nat
  text : String
  lemma_ : String
  type : String
  degree : String
  why : List String
deriving Repr, DecidableEq

/-- `adjective_info` from the source.  `tok.text[:1].isupper()` is modelled
as: the first character exists and is uppercase. -/
def adjective_info (k : Nat) (t : Token) : AdjRecord :=
  let deg :=
    if t.tag == "JJR" then "comparative"
    else if t.tag == "JJS" then "superlative"
    else "positive"
  let firstUpper :=
    match t.text.toList with
    | c :: _ => c.isUpper
    | [] => false
  let typ :=
    if firstUpper && ["amod", "acomp"].contains t.dep then "proper"
    else "common"
  { i := k, text := t.text, lemma_ := t.lemma_, type := typ, degree := deg,
    why := ["Adjective (" ++ t.tag ++ "); degree: " ++ deg ++ "."] }

/-- Adverb classification record (`adverb_info` output). -/
structure AdvRecord where
  i : Nat
  text : String
  lemma_ : String
  modifies : String
  degree : String
  conjunctive : Bool
  why : List String
deriving Repr, DecidableEq

/-- `adverb_info` from the source.  The head token is looked up by index
(spaCy guarantees the head exists; an out-of-range index falls back to the
token itself). -/
def adverb_info (doc : List Token) (k : Nat) (t : Token) : AdvRecord :=
  let headTok := (doc[t.head]?).getD t
  let deg :=
    if t.tag == "RBR" then "comparative"
    else if t.tag == "RBS" then "superlative"
    else "positive"
  let conj_adv :=
    ["however", "therefore", "moreover", "consequently", "nevertheless",
     "furthermore", "thus", "hence", "meanwhile"].contains (str_lower t.lemma_)
  let modifies :=
    if t.dep == "advmod" && headTok.pos == "ADJ" then "adjective"
    else if t.dep == "advmod" && headTok.pos == "ADV" then "adverb"
    else if t.dep == "advmod"
        && ["VERB", "AUX"].contains headTok.pos then "verb"
    else if t.dep == "advcl" then "sentence"
    else "verb"
  { i := k, text := t.text, lemma_ := t.lemma_, modifies := modifies,
    degree := deg, conjunctive := conj_adv,
    why := ["Adverb (" ++ t.tag ++ "); degree: " ++ deg ++ "."]
      ++ (if conj_adv then ["Conjunctive adverb (links clauses)."] else []) }

/-- Preposition record (`preposition_info` output). -/
structure PrepRecord where
  i : Nat
  text : String
  lemma_ : String
  type : String
  why : List String
deriving Repr, DecidableEq

/-- `preposition_info` from the source. -/
def preposition_info (k : Nat) (t : Token) : PrepRecord :=
  { i := k, text := t.text, lemma_ := t.lemma_, type := "preposition",
    why := ["Preposition heads a PP or marks relation."] }

/-- Conjunction record (`conjunction_info` output). -/
structure ConjRecord where
  i : Nat
  text : String
  lemma_ : String
  type : String
  why : List String
deriving Repr, DecidableEq

/-- `conjunction_info` from the source: the lowercased lemma is matched
against the coordinating, subordinating and conjunctive-adverb sets in
order (the conjunctive-adverb set here is the six-word one written in
`conjunction_info`, not the nine-word set used by `adverb_info`). -/
def conjunction_info (k : Nat) (t : Token) : ConjRecord :=
  let lem := str_lower t.lemma_
  let tw : String × List String :=
    if ["for", "and", "nor", "but", "or", "yet", "so"].contains lem then
      ("coordinating", ["Coordinating conjunction (FANBOYS)."])
    else if ["because", "although", "if", "when", "since", "while", "after",
             "before", "though", "unless", "until"].contains lem then
      ("subordinating", ["Subordinating conjunction (introduces dependent clause)."])
    else if ["however", "therefore", "moreover", "consequently",
             "furthermore", "nevertheless"].contains lem then
      ("conjunctive_adverb", ["Conjunctive adverb connecting clauses."])
    else
      ("other", ["Conjunction."])
  { i := k, text := t.text, lemma_ := t.lemma_, type := tw.1, why := tw.2 }

/-- Interjection record (`interjection_info` output). -/
structure IntjRecord where
  i : Nat
  text : String
  lemma_ : String
  is_interjection : Bool
  why : List String
deriving Repr, DecidableEq

/-- `interjection_info` from the source. -/
def interjection_info (k : Nat) (t : Token) : IntjRecord :=
  { i := k, text := t.text, lemma_ := t.lemma_, is_interjection := true,
    why := ["Interjection expresses emotion/reaction."] }

/-- The auxiliary record built inline in `analyze` (the `is_aux` branch). -/
structure AuxRecord where
  i : Nat
  text : String
  lemma_ : String
  pos : String
  tag : String
  role : String
  head_text : String
  why : List String
deriving Repr, DecidableEq

/-- The auxiliary bucket record from `analyze`: the role is
`aux_role(t, t.head)` (spaCy heads always exist, so the Python
`t.head if t.head else t` always takes the head). -/
def aux_record (doc : List Token) (k : Nat) (t : Token) : AuxRecord :=
  let headTok := (doc[t.head]?).getD t
  let role := aux_role t headTok
  { i := k, text := t.text, lemma_ := t.lemma_, pos := t.pos, tag := t.tag,
    role := role, head_text := headTok.text,
    why := ["Auxiliary (" ++ role ++ ")."] }

/-- The main-verb record built inline in `analyze` (the `pos == "VERB"`
branch). -/
structure VerbRecord where
  i : Nat
  text : String
  lemma_ : String
  pos : String
  tag : String
  aux_chain : List String
  particles : List String
  phrasal : String
  transitivity : String
  is_linking : Bool
  is_modal : Bool
  soa : String
  why : List String
deriving Repr, DecidableEq

/-- The verb bucket record from `analyze`. -/
def verb_record (doc : List Token) (k : Nat) (t : Token) : VerbRecord :=
  let particles := find_phrasal_particles doc k
  let phrasal :=
    if particles.isEmpty then t.text
    else String.intercalate " " (t.text :: particles)
  let trans := if has_object doc k then "transitive" else "intransitive"
  let is_link := LINKING_LEMMAS.contains t.lemma_
    && ["ROOT", "xcomp", "ccomp", "acomp", "attr", "relcl", "conj"].contains t.dep
  let soa :=
    if is_link then "state"
    else if ["happen", "occur", "arise"].contains t.lemma_ then "occurrence"
    else "action"
  { i := k, text := t.text, lemma_ := t.lemma_, pos := t.pos, tag := t.tag,
    aux_chain := collect_aux_chain doc k, particles := particles,
    phrasal := phrasal, transitivity := trans, is_linking := is_link,
    is_modal := false, soa := soa,
    why := ["Verb detected (" ++ t.tag ++ ").",
            "Phrasal particles: "
              ++ (if particles.isEmpty then "none"
                  else String.intercalate " " particles) ++ ".",
            "Transitivity: " ++ trans ++ ".",
            if is_link then "Linking verb (state)"
            else "Action/occurrence based on context."] }

/-- One entry of the parallel `pos_labels` array. -/
structure PosLabel where
  i : Nat
  gold : String
  why : List String
deriving Repr, DecidableEq

/-- The ten output lists filled by the dispatcher loop in `analyze`. -/
structure Buckets where
  verbs : List VerbRecord
  auxiliaries : List AuxRecord
  nouns : List NounRecord
  pronouns : List PronounRecord
  adjectives : List AdjRecord
  adverbs : List AdvRecord
  prepositions : List PrepRecord
  conjunctions : List ConjRecord
  interjections : List IntjRecord
  pos_labels : List PosLabel
deriving Repr, DecidableEq

/-- The empty bucket state at the top of `analyze`. -/
def emptyBuckets : Buckets := ⟨[], [], [], [], [], [], [], [], [], []⟩

/-- The `pos_labels` entry appended in the auxiliary branch of `analyze`
(its `why` names the role computed for the auxiliary record). -/
def aux_label (doc : List Token) (k : Nat) (t : Token) : PosLabel :=
  ⟨k, "auxiliary",
   ["Auxiliary \x27" ++ t.text ++ "\x27 (" ++ (aux_record doc k t).role ++ ")."]⟩

/-- The `pos_labels` entry appended in the main-verb branch of `analyze`. -/
def verb_label (k : Nat) (t : Token) : PosLabel :=
  ⟨k, "verb", ["Main verb \x27" ++ t.text ++ "\x27."]⟩

/-- The `pos_labels` entry appended in the residual branch of `analyze`. -/
def other_label (k : Nat) : PosLabel :=
  ⟨k, "other", ["Not a core POS in this game."]⟩

/-- The auxiliary branch body of the dispatcher loop. -/
def push_aux (doc : List Token) (b : Buckets) (k : Nat) (t : Token) : Buckets :=
  { b with auxiliaries := b.auxiliaries ++ [aux_record doc k t],
           pos_labels := b.pos_labels ++ [aux_label doc k t] }

/-- The main-verb branch body of the dispatcher loop. -/
def push_verb (doc : List Token) (b : Buckets) (k : Nat) (t : Token) : Buckets :=
  { b with verbs := b.verbs ++ [verb_record doc k t],
           pos_labels := b.pos_labels ++ [verb_label k t] }

/-- The noun branch body of the dispatcher loop. -/
def push_noun (doc : List Token) (b : Buckets) (k : Nat) (t : Token) : Buckets :=
  { b with nouns := b.nouns ++ [noun_info doc k t],
           pos_labels := b.pos_labels ++ [⟨k, "noun", (noun_info doc k t).why⟩] }

/-- The pronoun branch body of the dispatcher loop. -/
def push_pron (b : Buckets) (k : Nat) (t : Token) : Buckets :=
  { b with pronouns := b.pronouns ++ [pronoun_info k t],
           pos_labels := b.pos_labels ++ [⟨k, "pronoun", (pronoun_info k t).why⟩] }

/-- The adjective branch body of the dispatcher loop. -/
def push_adj (b : Buckets) (k : Nat) (t : Token) : Buckets :=
  { b with adjectives := b.adjectives ++ [adjective_info k t],
           pos_labels := b.pos_labels
             ++ [⟨k, "adjective", (adjective_info k t).why⟩] }

/-- The adverb branch body of the dispatcher loop. -/
def push_adv (doc : List Token) (b : Buckets) (k : Nat) (t : Token) : Buckets :=
  { b with adverbs := b.adverbs ++ [adverb_info doc k t],
           pos_labels := b.pos_labels
             ++ [⟨k, "adverb", (adverb_info doc k t).why⟩] }

/-- The preposition branch body of the dispatcher loop. -/
def push_prep (b : Buckets) (k : Nat) (t : Token) : Buckets :=
  { b with prepositions := b.prepositions ++ [preposition_info k t],
           pos_labels := b.pos_labels
             ++ [⟨k, "preposition", (preposition_info k t).why⟩] }

/-- The conjunction branch body of the dispatcher loop. -/
def push_conj (b : Buckets) (k : Nat) (t : Token) : Buckets :=
  { b with conjunctions := b.conjunctions ++ [conjunction_info k t],
           pos_labels := b.pos_labels
             ++ [⟨k, "conjunction", (conjunction_info k t).why⟩] }

/-- The interjection branch body of the dispatcher loop. -/
def push_intj (b : Buckets) (k : Nat) (t : Token) : Buckets :=
  { b with interjections := b.interjections ++ [interjection_info k t],
           pos_labels := b.pos_labels
             ++ [⟨k, "interjection", (interjection_info k t).why⟩] }

/-- The residual branch body of the dispatcher loop. -/
def push_other (b : Buckets) (k : Nat) : Buckets :=
  { b with pos_labels := b.pos_labels ++ [other_label k] }

/-- The noun test of the dispatcher:
`t.pos_ == "NOUN" or t.tag_ in ("NN","NNS","NNP","NNPS")`. -/
def noun_cond (t : Token) : Bool :=
  t.pos == "NOUN" || ["NN", "NNS", "NNP", "NNPS"].contains t.tag

/-- The conjunction test of the dispatcher:
`t.pos_ == "CCONJ" or t.pos_ == "SCONJ"`. -/
def conj_cond (t : Token) : Bool :=
  t.pos == "CCONJ" || t.pos == "SCONJ"

/-- One iteration of the dispatcher loop in `analyze`: the `if ... continue`
chain over a token, appending to exactly one bucket and to `pos_labels`. -/
def step (doc : List Token) (b : Buckets) : Nat × Token → Buckets
  | (k, t) =>
    if is_aux t then push_aux doc b k t
    else if t.pos == "VERB" then push_verb doc b k t
    else if noun_cond t then push_noun doc b k t
    else if t.pos == "PRON" then push_pron b k t
    else if t.pos == "ADJ" then push_adj b k t
    else if t.pos == "ADV" then push_adv doc b k t
    else if t.pos == "ADP" then push_prep b k t
    else if conj_cond t then push_conj b k t
    else if t.pos == "INTJ" then push_intj b k t
    else push_other b k

/-- The dispatcher loop of `analyze` over the whole document. -/
def run_buckets (doc : List Token) : Buckets :=
  doc.enum.foldl (step doc) emptyBuckets

/-- A noun chunk from the oracle (`doc.noun_chunks`): designated root-token
index, the indices of the span's tokens, and the span's surface text. -/
structure NounChunk where
  rootIdx : Nat
  spanIdxs : List Nat
  text : String
deriving Repr, DecidableEq

/-- A parsed document: the oracle's token sequence, whether dependency
annotation is present (`doc.has_annotation("DEP")`), and the oracle's noun
chunks. -/
structure Doc where
  text : String
  tokens : List Token
  hasDep : Bool
  noun_chunks : List NounChunk
deriving Repr, DecidableEq

/-- Noun-phrase record built in `analyze` from one noun chunk. -/
structure NPRecord where
  i : Nat
  head : String
  span : String
  role : String
  has_det : Bool
  pp_postmod : Bool
  head_type : String
  why : List String
deriving Repr, DecidableEq

/-- The noun-phrase extraction body of `analyze` for one chunk. -/
def np_record (doc : List Token) (np : NounChunk) : NPRecord :=
  let headTok := (doc[np.rootIdx]?).getD default
  let spanToks := np.spanIdxs.filterMap (fun j => doc[j]?)
  let has_det := spanToks.any (fun t => t.dep == "det")
  let pp_post := spanToks.any (fun t => t.dep == "prep")
  let head_type :=
    if headTok.tag == "NNP" || headTok.tag == "NNPS" then "proper"
    else "common"
  let role :=
    if headTok.dep == "nsubj" || headTok.dep == "nsubjpass" then "subject"
    else if headTok.dep == "dobj" || headTok.dep == "obj" then "object"
    else if headTok.dep == "pobj" then "object_of_preposition"
    else "other"
  { i := np.rootIdx, head := headTok.text, span := np.text, role := role,
    has_det := has_det, pp_postmod := pp_post, head_type := head_type,
    why := ["Head \x27" ++ headTok.text ++ "\x27 with NP span \x27"
              ++ np.text ++ "\x27."] }

/-- A clause record emitted by the clause segmenter in `analyze`. -/
structure ClauseRecord where
  i : Nat
  text : String
  type : String
  finite : Bool
  has_marker : Bool
  why : List String
deriving Repr, DecidableEq

/-- Walking the head chain from token `j` upward reaches token `k`
(fuel-bounded; the chain stops at a self-headed token, i.e. the root). -/
def head_chain_reaches (doc : List Token) : Nat → Nat → Nat → Bool
  | 0, _, _ => false
  | fuel + 1, j, k =>
    if j == k then true
    else
      match doc[j]? with
      | none => false
      | some t => if t.head == j then false else head_chain_reaches doc fuel t.head k

/-- `" ".join(tok.text for tok in t.subtree)`: spaCy's subtree is the token
together with all its transitive dependents, in document order; in the
head-indexed arena a token `j` belongs to the subtree of `k` exactly when
its head chain reaches `k`. -/
def subtree_text (doc : List Token) (k : Nat) : String :=
  String.intercalate " "
    ((doc.enum.filter (fun p => head_chain_reaches doc (doc.length + 1) p.1 k)).map
      (fun p => p.2.text))

/-- The independent-clause condition in `analyze`:
`t.dep_ == "ROOT" and t.pos_ in ("VERB","AUX")`. -/
def clause_root_cond (t : Token) : Bool :=
  t.dep == "ROOT" && (t.pos == "VERB" || t.pos == "AUX")

/-- The dependent-clause condition in `analyze`:
`t.dep_ in ("ccomp","xcomp","advcl","relcl")`. -/
def clause_dep_cond (t : Token) : Bool :=
  ["ccomp", "xcomp", "advcl", "relcl"].contains t.dep

/-- The two (independent) clause-emitting `if`s of `analyze` for one
token. -/
def clause_records (doc : List Token) (k : Nat) (t : Token) : List ClauseRecord :=
  (if clause_root_cond t then
    [{ i := k, text := subtree_text doc k, type := "independent",
       finite := true, has_marker := false,
       why := ["Root predicate => independent clause."] }]
   else [])
    ++ (if clause_dep_cond t then
      [{ i := k, text := subtree_text doc k,
         type :=
           if t.dep == "advcl" then "adverbial"
           else if t.dep == "relcl" then "relative"
           else "complement",
         finite := !(t.morphVerbForm == ["Inf"]),
         has_marker := (children doc k).any
           (fun p => ["mark", "complm", "relcl"].contains p.2.dep),
         why := [t.dep ++ " attached to " ++ ((doc[t.head]?).getD t).text ++ "."] }]
     else [])

/-- The clause segmenter loop of `analyze`. -/
def clauses_of (doc : List Token) : List ClauseRecord :=
  (doc.enum.map (fun p => clause_records doc p.1 p.2)).flatten

/-- The assembled `analyze` response. -/
structure AnalyzeOut where
  text : String
  tokens : List (Nat × Token)
  verbs : List VerbRecord
  auxiliaries : List AuxRecord
  nouns : List NounRecord
  pronouns : List PronounRecord
  adjectives : List AdjRecord
  adverbs : List AdvRecord
  prepositions : List PrepRecord
  conjunctions : List ConjRecord
  interjections : List IntjRecord
  noun_phrases : List NPRecord
  clauses : List ClauseRecord
  pos_labels : List PosLabel
deriving Repr, DecidableEq

/-- `analyze` from the source, over an oracle-parsed document: the
dispatcher loop, noun-phrase extraction (skipped entirely when the parse
lacks dependency annotation), the clause segmenter, and the assembled
output. -/
def analyze (d : Doc) : AnalyzeOut :=
  let b := run_buckets d.tokens
  { text := d.text, tokens := d.tokens.enum,
    verbs := b.verbs, auxiliaries := b.auxiliaries, nouns := b.nouns,
    pronouns := b.pronouns, adjectives := b.adjectives, adverbs := b.adverbs,
    prepositions := b.prepositions, conjunctions := b.conjunctions,
    interjections := b.interjections,
    noun_phrases :=
      if d.hasDep then d.noun_chunks.map (np_record d.tokens) else [],
    clauses := clauses_of d.tokens, pos_labels := b.pos_labels }

/-- Outcome of the tatoeba call in `sentence`: the request or JSON parse
raised, or the JSON had no (nonempty) `results`, or a first result with a
`text` was obtained. -/
inductive TatoebaOutcome where
  | exn : TatoebaOutcome
  | noResults : TatoebaOutcome
  | ok : String → TatoebaOutcome
deriving Repr, DecidableEq

/-- Outcome of the wordnik calls in `sentence`: a raised exception, a JSON
without a `word`, or a base word plus the `examples` list (each example's
optional `text` field). -/
inductive WordnikOutcome where
  | exn : WordnikOutcome
  | noWord : WordnikOutcome
  | ok : String → List (Option String) → WordnikOutcome
deriving Repr, DecidableEq

/-- The `/sentence` endpoint's response. -/
structure SentenceOut where
  text : String
  source : String
deriving Repr, DecidableEq

/-- `sentence` from the source.  External behaviour (network, JSON shape)
enters as the two outcome values and the configured wordnik key (`none`
models `WORDNIK_API_KEY` unset *or* empty, collapsing Python's `if key:`
falsiness test); `random.choice(LOCAL_SENTENCES)` is modelled by an
arbitrary pick index reduced modulo the list length.  Note
`examples[0].get("text") or base` falls back to the base word when the
example text is missing *or empty* (Python falsiness). -/
def sentence (source : String) (tat : TatoebaOutcome) (key : Option String)
    (wn : WordnikOutcome) (pick : Nat) : SentenceOut :=
  let tatResult : Option SentenceOut :=
    if source == "tatoeba" then
      match tat with
      | TatoebaOutcome.ok txt => some ⟨txt, "tatoeba"⟩
      | _ => none
    else none
  match tatResult with
  | some r => r
  | none =>
    let wnResult : Option SentenceOut :=
      if source == "wordnik" then
        match key with
        | some _ =>
          match wn with
          | WordnikOutcome.ok base examples =>
            match examples with
            | [] => none
            | e0 :: _ =>
              some ⟨(match e0 with
                     | some s => if s == "" then base else s
                     | none => base), "wordnik"⟩
          | _ => none
        | none => none
      else none
    match wnResult with
    | some r => r
    | none =>
      ⟨(LOCAL_SENTENCES[pick % LOCAL_SENTENCES.length]?).getD "", "local"⟩

/-- The external call chain succeeded: `sentence` returns an externally
sourced sentence exactly in these cases. -/
def external_success (source : String) (tat : TatoebaOutcome)
    (key : Option String) (wn : WordnikOutcome) : Bool :=
  (source == "tatoeba"
      && (match tat with | TatoebaOutcome.ok _ => true | _ => false))
    || (source == "wordnik" && key.isSome
      && (match wn with
          | WordnikOutcome.ok _ examples => !examples.isEmpty
          | _ => false))

/-! ### Characterisation of the dispatcher -/

/-- The bucket name (= `gold` label) a token resolves to under the
dispatcher's priority chain. -/
def goldOf (t : Token) : String :=
  if is_aux t then "auxiliary"
  else if t.pos == "VERB" then "verb"
  else if noun_cond t then "noun"
  else if t.pos == "PRON" then "pronoun"
  else if t.pos == "ADJ" then "adjective"
  else if t.pos == "ADV" then "adverb"
  else if t.pos == "ADP" then "preposition"
  else if conj_cond t then "conjunction"
  else if t.pos == "INTJ" then "interjection"
  else "other"

/-- The `pos_labels` entry the dispatcher appends for a token. -/
def label_of (doc : List Token) (k : Nat) (t : Token) : PosLabel :=
  if is_aux t then aux_label doc k t
  else if t.pos == "VERB" then verb_label k t
  else if noun_cond t then ⟨k, "noun", (noun_info doc k t).why⟩
  else if t.pos == "PRON" then ⟨k, "pronoun", (pronoun_info k t).why⟩
  else if t.pos == "ADJ" then ⟨k, "adjective", (adjective_info k t).why⟩
  else if t.pos == "ADV" then ⟨k, "adverb", (adverb_info doc k t).why⟩
  else if t.pos == "ADP" then ⟨k, "preposition", (preposition_info k t).why⟩
  else if conj_cond t then ⟨k, "conjunction", (conjunction_info k t).why⟩
  else if t.pos == "INTJ" then ⟨k, "interjection", (interjection_info k t).why⟩
  else other_label k

/-- The ten mutually exclusive and exhaustive cases of the dispatcher. -/
theorem dispatch_cases (t : Token) :
    is_aux t = true
    ∨ (is_aux t = false ∧ (t.pos == "VERB") = true)
    ∨ (is_aux t = false ∧ (t.pos == "VERB") = false ∧ noun_cond t = true)
    ∨ (is_aux t = false ∧ (t.pos == "VERB") = false ∧ noun_cond t = false
        ∧ (t.pos == "PRON") = true)
    ∨ (is_aux t = false ∧ (t.pos == "VERB") = false ∧ noun_cond t = false
        ∧ (t.pos == "PRON") = false ∧ (t.pos == "ADJ") = true)
    ∨ (is_aux t = false ∧ (t.pos == "VERB") = false ∧ noun_cond t = false
        ∧ (t.pos == "PRON") = false ∧ (t.pos == "ADJ") = false
        ∧ (t.pos == "ADV") = true)
    ∨ (is_aux t = false ∧ (t.pos == "VERB") = false ∧ noun_cond t = false
        ∧ (t.pos == "PRON") = false ∧ (t.pos == "ADJ") = false
        ∧ (t.pos == "ADV") = false ∧ (t.pos == "ADP") = true)
    ∨ (is_aux t = false ∧ (t.pos == "VERB") = false ∧ noun_cond t = false
        ∧ (t.pos == "PRON") = false ∧ (t.pos == "ADJ") = false
        ∧ (t.pos == "ADV") = false ∧ (t.pos == "ADP") = false
        ∧ conj_cond t = true)
    ∨ (is_aux t = false ∧ (t.pos == "VERB") = false ∧ noun_cond t = false
        ∧ (t.pos == "PRON") = false ∧ (t.pos == "ADJ") = false
        ∧ (t.pos == "ADV") = false ∧ (t.pos == "ADP") = false
        ∧ conj_cond t = false ∧ (t.pos == "INTJ") = true)
    ∨ (is_aux t = false ∧ (t.pos == "VERB") = false ∧ noun_cond t = false
        ∧ (t.pos == "PRON") = false ∧ (t.pos == "ADJ") = false
        ∧ (t.pos == "ADV") = false ∧ (t.pos == "ADP") = false
        ∧ conj_cond t = false ∧ (t.pos == "INTJ") = false) := by
  cases h1 : is_aux t
  case true => exact Or.inl rfl
  all_goals cases h2 : (t.pos == "VERB")
  case true => exact Or.inr (Or.inl ⟨rfl, rfl⟩)
  all_goals cases h3 : noun_cond t
  case true => exact Or.inr (Or.inr (Or.inl ⟨rfl, rfl, rfl⟩))
  all_goals cases h4 : (t.pos == "PRON")
  case true => exact Or.inr (Or.inr (Or.inr (Or.inl ⟨rfl, rfl, rfl, rfl⟩)))
  all_goals cases h5 : (t.pos == "ADJ")
  case true =>
    exact Or.inr (Or.inr (Or.inr (Or.inr (Or.inl ⟨rfl, rfl, rfl, rfl, rfl⟩))))
  all_goals cases h6 : (t.pos == "ADV")
  case true =>
    exact Or.inr (Or.inr (Or.inr (Or.inr (Or.inr
      (Or.inl ⟨rfl, rfl, rfl, rfl, rfl, rfl⟩)))))
  all_goals cases h7 : (t.pos == "ADP")
  case true =>
    exact Or.inr (Or.inr (Or.inr (Or.inr (Or.inr (Or.inr
      (Or.inl ⟨rfl, rfl, rfl, rfl, rfl, rfl, rfl⟩))))))
  all_goals cases h8 : conj_cond t
  case true =>
    exact Or.inr (Or.inr (Or.inr (Or.inr (Or.inr (Or.inr (Or.inr
      (Or.inl ⟨rfl, rfl, rfl, rfl, rfl, rfl, rfl, rfl⟩)))))))
  all_goals cases h9 : (t.pos == "INTJ")
  case true =>
    exact Or.inr (Or.inr (Or.inr (Or.inr (Or.inr (Or.inr (Or.inr (Or.inr
      (Or.inl ⟨rfl, rfl, rfl, rfl, rfl, rfl, rfl, rfl, rfl⟩))))))))
  case false =>
    exact Or.inr (Or.inr (Or.inr (Or.inr (Or.inr (Or.inr (Or.inr (Or.inr
      (Or.inr ⟨rfl, rfl, rfl, rfl, rfl, rfl, rfl, rfl, rfl⟩))))))))

theorem step_eq_aux (doc : List Token) (b : Buckets) (k : Nat) (t : Token)
    (h1 : is_aux t = true) :
    step doc b (k, t) = push_aux doc b k t := by
  simp only [step]; rw [if_pos h1]

theorem step_eq_verb (doc : List Token) (b : Buckets) (k : Nat) (t : Token)
    (h1 : is_aux t = false) (h2 : (t.pos == "VERB") = true) :
    step doc b (k, t) = push_verb doc b k t := by
  simp only [step]; rw [if_neg (by simp [h1]), if_pos h2]

theorem step_eq_noun (doc : List Token) (b : Buckets) (k : Nat) (t : Token)
    (h1 : is_aux t = false) (h2 : (t.pos == "VERB") = false)
    (h3 : noun_cond t = true) :
    step doc b (k, t) = push_noun doc b k t := by
  simp only [step]; rw [if_neg (by simp [h1]), if_neg (by simp [h2]), if_pos h3]

theorem step_eq_pron (doc : List Token) (b : Buckets) (k : Nat) (t : Token)
    (h1 : is_aux t = false) (h2 : (t.pos == "VERB") = false)
    (h3 : noun_cond t = false) (h4 : (t.pos == "PRON") = true) :
    step doc b (k, t) = push_pron b k t := by
  simp only [step]
  rw [if_neg (by simp [h1]), if_neg (by simp [h2]), if_neg (by simp [h3]),
    if_pos h4]

theorem step_eq_adj (doc : List Token) (b : Buckets) (k : Nat) (t : Token)
    (h1 : is_aux t = false) (h2 : (t.pos == "VERB") = false)
    (h3 : noun_cond t = false) (h4 : (t.pos == "PRON") = false)
    (h5 : (t.pos == "ADJ") = true) :
    step doc b (k, t) = push_adj b k t := by
  simp only [step]
  rw [if_neg (by simp [h1]), if_neg (by simp [h2]), if_neg (by simp [h3]),
    if_neg (by simp [h4]), if_pos h5]

theorem step_eq_adv (doc : List Token) (b : Buckets) (k : Nat) (t : Token)
    (h1 : is_aux t = false) (h2 : (t.pos == "VERB") = false)
    (h3 : noun_cond t = false) (h4 : (t.pos == "PRON") = false)
    (h5 : (t.pos == "ADJ") = false) (h6 : (t.pos == "ADV") = true) :
    step doc b (k, t) = push_adv doc b k t := by
  simp only [step]
  rw [if_neg (by simp [h1]), if_neg (by simp [h2]), if_neg (by simp [h3]),
    if_neg (by simp [h4]), if_neg (by simp [h5]), if_pos h6]

theorem step_eq_prep (doc : List Token) (b : Buckets) (k : Nat) (t : Token)
    (h1 : is_aux t = false) (h2 : (t.pos == "VERB") = false)
    (h3 : noun_cond t = false) (h4 : (t.pos == "PRON") = false)
    (h5 : (t.pos == "ADJ") = false) (h6 : (t.pos == "ADV") = false)
    (h7 : (t.pos == "ADP") = true) :
    step doc b (k, t) = push_prep b k t := by
  simp only [step]
  rw [if_neg (by simp [h1]), if_neg (by simp [h2]), if_neg (by simp [h3]),
    if_neg (by simp [h4]), if_neg (by simp [h5]), if_neg (by simp [h6]),
    if_pos h7]

theorem step_eq_conj (doc : List Token) (b : Buckets) (k : Nat) (t : Token)
    (h1 : is_aux t = false) (h2 : (t.pos == "VERB") = false)
    (h3 : noun_cond t = false) (h4 : (t.pos == "PRON") = false)
    (h5 : (t.pos == "ADJ") = false) (h6 : (t.pos == "ADV") = false)
    (h7 : (t.pos == "ADP") = false) (h8 : conj_cond t = true) :
    step doc b (k, t) = push_conj b k t := by
  simp only [step]
  rw [if_neg (by simp [h1]), if_neg (by simp [h2]), if_neg (by simp [h3]),
    if_neg (by simp [h4]), if_neg (by simp [h5]), if_neg (by simp [h6]),
    if_neg (by simp [h7]), if_pos h8]

theorem step_eq_intj (doc : List Token) (b : Buckets) (k : Nat) (t : Token)
    (h1 : is_aux t = false) (h2 : (t.pos == "VERB") = false)
    (h3 : noun_cond t = false) (h4 : (t.pos == "PRON") = false)
    (h5 : (t.pos == "ADJ") = false) (h6 : (t.pos == "ADV") = false)
    (h7 : (t.pos == "ADP") = false) (h8 : conj_cond t = false)
    (h9 : (t.pos == "INTJ") = true) :
    step doc b (k, t) = push_intj b k t := by
  simp only [step]
  rw [if_neg (by simp [h1]), if_neg (by simp [h2]), if_neg (by simp [h3]),
    if_neg (by simp [h4]), if_neg (by simp [h5]), if_neg (by simp [h6]),
    if_neg (by simp [h7]), if_neg (by simp [h8]), if_pos h9]

theorem step_eq_other (doc : List Token) (b : Buckets) (k : Nat) (t : Token)
    (h1 : is_aux t = false) (h2 : (t.pos == "VERB") = false)
    (h3 : noun_cond t = false) (h4 : (t.pos == "PRON") = false)
    (h5 : (t.pos == "ADJ") = false) (h6 : (t.pos == "ADV") = false)
    (h7 : (t.pos == "ADP") = false) (h8 : conj_cond t = false)
    (h9 : (t.pos == "INTJ") = false) :
    step doc b (k, t) = push_other b k := by
  simp only [step]
  rw [if_neg (by simp [h1]), if_neg (by simp [h2]), if_neg (by simp [h3]),
    if_neg (by simp [h4]), if_neg (by simp [h5]), if_neg (by simp [h6]),
    if_neg (by simp [h7]), if_neg (by simp [h8]), if_neg (by simp [h9])]

theorem goldOf_eq_aux (t : Token) (h1 : is_aux t = true) :
    goldOf t = "auxiliary" := by
  simp only [goldOf]; rw [if_pos h1]

theorem goldOf_eq_verb (t : Token) (h1 : is_aux t = false)
    (h2 : (t.pos == "VERB") = true) : goldOf t = "verb" := by
  simp only [goldOf]; rw [if_neg (by simp [h1]), if_pos h2]

theorem goldOf_eq_noun (t : Token) (h1 : is_aux t = false)
    (h2 : (t.pos == "VERB") = false) (h3 : noun_cond t = true) :
    goldOf t = "noun" := by
  simp only [goldOf]
  rw [if_neg (by simp [h1]), if_neg (by simp [h2]), if_pos h3]

theorem goldOf_eq_pron (t : Token) (h1 : is_aux t = false)
    (h2 : (t.pos == "VERB") = false) (h3 : noun_cond t = false)
    (h4 : (t.pos == "PRON") = true) : goldOf t = "pronoun" := by
  simp only [goldOf]
  rw [if_neg (by simp [h1]), if_neg (by simp [h2]), if_neg (by simp [h3]),
    if_pos h4]

theorem goldOf_eq_adj (t : Token) (h1 : is_aux t = false)
    (h2 : (t.pos == "VERB") = false) (h3 : noun_cond t = false)
    (h4 : (t.pos == "PRON") = false) (h5 : (t.pos == "ADJ") = true) :
    goldOf t = "adjective" := by
  simp only [goldOf]
  rw [if_neg (by simp [h1]), if_neg (by simp [h2]), if_neg (by simp [h3]),
    if_neg (by simp [h4]), if_pos h5]

theorem goldOf_eq_adv (t : Token) (h1 : is_aux t = false)
    (h2 : (t.pos == "VERB") = false) (h3 : noun_cond t = false)
    (h4 : (t.pos == "PRON") = false) (h5 : (t.pos == "ADJ") = false)
    (h6 : (t.pos == "ADV") = true) : goldOf t = "adverb" := by
  simp only [goldOf]
  rw [if_neg (by simp [h1]), if_neg (by simp [h2]), if_neg (by simp [h3]),
    if_neg (by simp [h4]), if_neg (by simp [h5]), if_pos h6]

theorem goldOf_eq_prep (t : Token) (h1 : is_aux t = false)
    (h2 : (t.pos == "VERB") = false) (h3 : noun_cond t = false)
    (h4 : (t.pos == "PRON") = false) (h5 : (t.pos == "ADJ") = false)
    (h6 : (t.pos == "ADV") = false) (h7 : (t.pos == "ADP") = true) :
    goldOf t = "preposition" := by
  simp only [goldOf]
  rw [if_neg (by simp [h1]), if_neg (by simp [h2]), if_neg (by simp [h3]),
    if_neg (by simp [h4]), if_neg (by simp [h5]), if_neg (by simp [h6]),
    if_pos h7]

theorem goldOf_eq_conj (t : Token) (h1 : is_aux t = false)
    (h2 : (t.pos == "VERB") = false) (h3 : noun_cond t = false)
    (h4 : (t.pos == "PRON") = false) (h5 : (t.pos == "ADJ") = false)
    (h6 : (t.pos == "ADV") = false) (h7 : (t.pos == "ADP") = false)
    (h8 : conj_cond t = true) : goldOf t = "conjunction" := by
  simp only [goldOf]
  rw [if_neg (by simp [h1]), if_neg (by simp [h2]), if_neg (by simp [h3]),
    if_neg (by simp [h4]), if_neg (by simp [h5]), if_neg (by simp [h6]),
    if_neg (by simp [h7]), if_pos h8]

theorem goldOf_eq_intj (t : Token) (h1 : is_aux t = false)
    (h2 : (t.pos == "VERB") = false) (h3 : noun_cond t = false)
    (h4 : (t.pos == "PRON") = false) (h5 : (t.pos == "ADJ") = false)
    (h6 : (t.pos == "ADV") = false) (h7 : (t.pos == "ADP") = false)
    (h8 : conj_cond t = false) (h9 : (t.pos == "INTJ") = true) :
    goldOf t = "interjection" := by
  simp only [goldOf]
  rw [if_neg (by simp [h1]), if_neg (by simp [h2]), if_neg (by simp [h3]),
    if_neg (by simp [h4]), if_neg (by simp [h5]), if_neg (by simp [h6]),
    if_neg (by simp [h7]), if_neg (by simp [h8]), if_pos h9]

theorem goldOf_eq_other (t : Token) (h1 : is_aux t = false)
    (h2 : (t.pos == "VERB") = false) (h3 : noun_cond t = false)
    (h4 : (t.pos == "PRON") = false) (h5 : (t.pos == "ADJ") = false)
    (h6 : (t.pos == "ADV") = false) (h7 : (t.pos == "ADP") = false)
    (h8 : conj_cond t = false) (h9 : (t.pos == "INTJ") = false) :
    goldOf t = "other" := by
  simp only [goldOf]
  rw [if_neg (by simp [h1]), if_neg (by simp [h2]), if_neg (by simp [h3]),
    if_neg (by simp [h4]), if_neg (by simp [h5]), if_neg (by simp [h6]),
    if_neg (by simp [h7]), if_neg (by simp [h8]), if_neg (by simp [h9])]

theorem label_of_eq_aux (doc : List Token) (k : Nat) (t : Token)
    (h1 : is_aux t = true) : label_of doc k t = aux_label doc k t := by
  simp only [label_of]; rw [if_pos h1]

theorem label_of_eq_verb (doc : List Token) (k : Nat) (t : Token)
    (h1 : is_aux t = false) (h2 : (t.pos == "VERB") = true) :
    label_of doc k t = verb_label k t := by
  simp only [label_of]; rw [if_neg (by simp [h1]), if_pos h2]

theorem label_of_eq_noun (doc : List Token) (k : Nat) (t : Token)
    (h1 : is_aux t = false) (h2 : (t.pos == "VERB") = false)
    (h3 : noun_cond t = true) :
    label_of doc k t = ⟨k, "noun", (noun_info doc k t).why⟩ := by
  simp only [label_of]
  rw [if_neg (by simp [h1]), if_neg (by simp [h2]), if_pos h3]

theorem label_of_eq_pron (doc : List Token) (k : Nat) (t : Token)
    (h1 : is_aux t = false) (h2 : (t.pos == "VERB") = false)
    (h3 : noun_cond t = false) (h4 : (t.pos == "PRON") = true) :
    label_of doc k t = ⟨k, "pronoun", (pronoun_info k t).why⟩ := by
  simp only [label_of]
  rw [if_neg (by simp [h1]), if_neg (by simp [h2]), if_neg (by simp [h3]),
    if_pos h4]

theorem label_of_eq_adj (doc : List Token) (k : Nat) (t : Token)
    (h1 : is_aux t = false) (h2 : (t.pos == "VERB") = false)
    (h3 : noun_cond t = false) (h4 : (t.pos == "PRON") = false)
    (h5 : (t.pos == "ADJ") = true) :
    label_of doc k t = ⟨k, "adjective", (adjective_info k t).why⟩ := by
  simp only [label_of]
  rw [if_neg (by simp [h1]), if_neg (by simp [h2]), if_neg (by simp [h3]),
    if_neg (by simp [h4]), if_pos h5]

theorem label_of_eq_adv (doc : List Token) (k : Nat) (t : Token)
    (h1 : is_aux t = false) (h2 : (t.pos == "VERB") = false)
    (h3 : noun_cond t = false) (h4 : (t.pos == "PRON") = false)
    (h5 : (t.pos == "ADJ") = false) (h6 : (t.pos == "ADV") = true) :
    label_of doc k t = ⟨k, "adverb", (adverb_info doc k t).why⟩ := by
  simp only [label_of]
  rw [if_neg (by simp [h1]), if_neg (by simp [h2]), if_neg (by simp [h3]),
    if_neg (by simp [h4]), if_neg (by simp [h5]), if_pos h6]

theorem label_of_eq_prep (doc : List Token) (k : Nat) (t : Token)
    (h1 : is_aux t = false) (h2 : (t.pos == "VERB") = false)
    (h3 : noun_cond t = false) (h4 : (t.pos == "PRON") = false)
    (h5 : (t.pos == "ADJ") = false) (h6 : (t.pos == "ADV") = false)
    (h7 : (t.pos == "ADP") = true) :
    label_of doc k t = ⟨k, "preposition", (preposition_info k t).why⟩ := by
  simp only [label_of]
  rw [if_neg (by simp [h1]), if_neg (by simp [h2]), if_neg (by simp [h3]),
    if_neg (by simp [h4]), if_neg (by simp [h5]), if_neg (by simp [h6]),
    if_pos h7]

theorem label_of_eq_conj (doc : List Token) (k : Nat) (t : Token)
    (h1 : is_aux t = false) (h2 : (t.pos == "VERB") = false)
    (h3 : noun_cond t = false) (h4 : (t.pos == "PRON") = false)
    (h5 : (t.pos == "ADJ") = false) (h6 : (t.pos == "ADV") = false)
    (h7 : (t.pos == "ADP") = false) (h8 : conj_cond t = true) :
    label_of doc k t = ⟨k, "conjunction", (conjunction_info k t).why⟩ := by
  simp only [label_of]
  rw [if_neg (by simp [h1]), if_neg (by simp [h2]), if_neg (by simp [h3]),
    if_neg (by simp [h4]), if_neg (by simp [h5]), if_neg (by simp [h6]),
    if_neg (by simp [h7]), if_pos h8]

theorem label_of_eq_intj (doc : List Token) (k : Nat) (t : Token)
    (h1 : is_aux t = false) (h2 : (t.pos == "VERB") = false)
    (h3 : noun_cond t = false) (h4 : (t.pos == "PRON") = false)
    (h5 : (t.pos == "ADJ") = false) (h6 : (t.pos == "ADV") = false)
    (h7 : (t.pos == "ADP") = false) (h8 : conj_cond t = false)
    (h9 : (t.pos == "INTJ") = true) :
    label_of doc k t = ⟨k, "interjection", (interjection_info k t).why⟩ := by
  simp only [label_of]
  rw [if_neg (by simp [h1]), if_neg (by simp [h2]), if_neg (by simp [h3]),
    if_neg (by simp [h4]), if_neg (by simp [h5]), if_neg (by simp [h6]),
    if_neg (by simp [h7]), if_neg (by simp [h8]), if_pos h9]

theorem label_of_eq_other (doc : List Token) (k : Nat) (t : Token)
    (h1 : is_aux t = false) (h2 : (t.pos == "VERB") = false)
    (h3 : noun_cond t = false) (h4 : (t.pos == "PRON") = false)
    (h5 : (t.pos == "ADJ") = false) (h6 : (t.pos == "ADV") = false)
    (h7 : (t.pos == "ADP") = false) (h8 : conj_cond t = false)
    (h9 : (t.pos == "INTJ") = false) :
    label_of doc k t = other_label k := by
  simp only [label_of]
  rw [if_neg (by simp [h1]), if_neg (by simp [h2]), if_neg (by simp [h3]),
    if_neg (by simp [h4]), if_neg (by simp [h5]), if_neg (by simp [h6]),
    if_neg (by simp [h7]), if_neg (by simp [h8]), if_neg (by simp [h9])]

theorem step_pos_labels (doc : List Token) (b : Buckets) (p : Nat × Token) :
    (step doc b p).pos_labels = b.pos_labels ++ [label_of doc p.1 p.2] := by
  obtain ⟨k, t⟩ := p
  rcases dispatch_cases t with h1 | ⟨h1, h2⟩ | ⟨h1, h2, h3⟩ | ⟨h1, h2, h3, h4⟩
    | ⟨h1, h2, h3, h4, h5⟩ | ⟨h1, h2, h3, h4, h5, h6⟩
    | ⟨h1, h2, h3, h4, h5, h6, h7⟩ | ⟨h1, h2, h3, h4, h5, h6, h7, h8⟩
    | ⟨h1, h2, h3, h4, h5, h6, h7, h8, h9⟩
    | ⟨h1, h2, h3, h4, h5, h6, h7, h8, h9⟩ <;>
  (first
    | rw [step_eq_aux doc b k t h1, label_of_eq_aux doc k t h1]
    | rw [step_eq_verb doc b k t h1 h2, label_of_eq_verb doc k t h1 h2]
    | rw [step_eq_noun doc b k t h1 h2 h3, label_of_eq_noun doc k t h1 h2 h3]
    | rw [step_eq_pron doc b k t h1 h2 h3 h4, label_of_eq_pron doc k t h1 h2 h3 h4]
    | rw [step_eq_adj doc b k t h1 h2 h3 h4 h5, label_of_eq_adj doc k t h1 h2 h3 h4 h5]
    | rw [step_eq_adv doc b k t h1 h2 h3 h4 h5 h6, label_of_eq_adv doc k t h1 h2 h3 h4 h5 h6]
    | rw [step_eq_prep doc b k t h1 h2 h3 h4 h5 h6 h7, label_of_eq_prep doc k t h1 h2 h3 h4 h5 h6 h7]
    | rw [step_eq_conj doc b k t h1 h2 h3 h4 h5 h6 h7 h8, label_of_eq_conj doc k t h1 h2 h3 h4 h5 h6 h7 h8]
    | rw [step_eq_intj doc b k t h1 h2 h3 h4 h5 h6 h7 h8 h9, label_of_eq_intj doc k t h1 h2 h3 h4 h5 h6 h7 h8 h9]
    | rw [step_eq_other doc b k t h1 h2 h3 h4 h5 h6 h7 h8 h9, label_of_eq_other doc k t h1 h2 h3 h4 h5 h6 h7 h8 h9]) <;>
  rfl

theorem step_verbs (doc : List Token) (b : Buckets) (p : Nat × Token) :
    (step doc b p).verbs
      = b.verbs ++ (if goldOf p.2 = "verb" then [verb_record doc p.1 p.2] else []) := by
  obtain ⟨k, t⟩ := p
  rcases dispatch_cases t with h1 | ⟨h1, h2⟩ | ⟨h1, h2, h3⟩ | ⟨h1, h2, h3, h4⟩
    | ⟨h1, h2, h3, h4, h5⟩ | ⟨h1, h2, h3, h4, h5, h6⟩
    | ⟨h1, h2, h3, h4, h5, h6, h7⟩ | ⟨h1, h2, h3, h4, h5, h6, h7, h8⟩
    | ⟨h1, h2, h3, h4, h5, h6, h7, h8, h9⟩
    | ⟨h1, h2, h3, h4, h5, h6, h7, h8, h9⟩ <;>
  (first
    | rw [step_eq_aux doc b k t h1, goldOf_eq_aux t h1]
    | rw [step_eq_verb doc b k t h1 h2, goldOf_eq_verb t h1 h2]
    | rw [step_eq_noun doc b k t h1 h2 h3, goldOf_eq_noun t h1 h2 h3]
    | rw [step_eq_pron doc b k t h1 h2 h3 h4, goldOf_eq_pron t h1 h2 h3 h4]
    | rw [step_eq_adj doc b k t h1 h2 h3 h4 h5, goldOf_eq_adj t h1 h2 h3 h4 h5]
    | rw [step_eq_adv doc b k t h1 h2 h3 h4 h5 h6, goldOf_eq_adv t h1 h2 h3 h4 h5 h6]
    | rw [step_eq_prep doc b k t h1 h2 h3 h4 h5 h6 h7, goldOf_eq_prep t h1 h2 h3 h4 h5 h6 h7]
    | rw [step_eq_conj doc b k t h1 h2 h3 h4 h5 h6 h7 h8, goldOf_eq_conj t h1 h2 h3 h4 h5 h6 h7 h8]
    | rw [step_eq_intj doc b k t h1 h2 h3 h4 h5 h6 h7 h8 h9, goldOf_eq_intj t h1 h2 h3 h4 h5 h6 h7 h8 h9]
    | rw [step_eq_other doc b k t h1 h2 h3 h4 h5 h6 h7 h8 h9, goldOf_eq_other t h1 h2 h3 h4 h5 h6 h7 h8 h9]) <;>
  (first
    | (rw [if_pos rfl]; rfl)
    | (rw [if_neg (by decide), List.append_nil]; rfl))

theorem step_auxiliaries (doc : List Token) (b : Buckets) (p : Nat × Token) :
    (step doc b p).auxiliaries
      = b.auxiliaries
        ++ (if goldOf p.2 = "auxiliary" then [aux_record doc p.1 p.2] else []) := by
  obtain ⟨k, t⟩ := p
  rcases dispatch_cases t with h1 | ⟨h1, h2⟩ | ⟨h1, h2, h3⟩ | ⟨h1, h2, h3, h4⟩
    | ⟨h1, h2, h3, h4, h5⟩ | ⟨h1, h2, h3, h4, h5, h6⟩
    | ⟨h1, h2, h3, h4, h5, h6, h7⟩ | ⟨h1, h2, h3, h4, h5, h6, h7, h8⟩
    | ⟨h1, h2, h3, h4, h5, h6, h7, h8, h9⟩
    | ⟨h1, h2, h3, h4, h5, h6, h7, h8, h9⟩ <;>
  (first
    | rw [step_eq_aux doc b k t h1, goldOf_eq_aux t h1]
    | rw [step_eq_verb doc b k t h1 h2, goldOf_eq_verb t h1 h2]
    | rw [step_eq_noun doc b k t h1 h2 h3, goldOf_eq_noun t h1 h2 h3]
    | rw [step_eq_pron doc b k t h1 h2 h3 h4, goldOf_eq_pron t h1 h2 h3 h4]
    | rw [step_eq_adj doc b k t h1 h2 h3 h4 h5, goldOf_eq_adj t h1 h2 h3 h4 h5]
    | rw [step_eq_adv doc b k t h1 h2 h3 h4 h5 h6, goldOf_eq_adv t h1 h2 h3 h4 h5 h6]
    | rw [step_eq_prep doc b k t h1 h2 h3 h4 h5 h6 h7, goldOf_eq_prep t h1 h2 h3 h4 h5 h6 h7]
    | rw [step_eq_conj doc b k t h1 h2 h3 h4 h5 h6 h7 h8, goldOf_eq_conj t h1 h2 h3 h4 h5 h6 h7 h8]
    | rw [step_eq_intj doc b k t h1 h2 h3 h4 h5 h6 h7 h8 h9, goldOf_eq_intj t h1 h2 h3 h4 h5 h6 h7 h8 h9]
    | rw [step_eq_other doc b k t h1 h2 h3 h4 h5 h6 h7 h8 h9, goldOf_eq_other t h1 h2 h3 h4 h5 h6 h7 h8 h9]) <;>
  (first
    | (rw [if_pos rfl]; rfl)
    | (rw [if_neg (by decide), List.append_nil]; rfl))

theorem step_nouns (doc : List Token) (b : Buckets) (p : Nat × Token) :
    (step doc b p).nouns
      = b.nouns ++ (if goldOf p.2 = "noun" then [noun_info doc p.1 p.2] else []) := by
  obtain ⟨k, t⟩ := p
  rcases dispatch_cases t with h1 | ⟨h1, h2⟩ | ⟨h1, h2, h3⟩ | ⟨h1, h2, h3, h4⟩
    | ⟨h1, h2, h3, h4, h5⟩ | ⟨h1, h2, h3, h4, h5, h6⟩
    | ⟨h1, h2, h3, h4, h5, h6, h7⟩ | ⟨h1, h2, h3, h4, h5, h6, h7, h8⟩
    | ⟨h1, h2, h3, h4, h5, h6, h7, h8, h9⟩
    | ⟨h1, h2, h3, h4, h5, h6, h7, h8, h9⟩ <;>
  (first
    | rw [step_eq_aux doc b k t h1, goldOf_eq_aux t h1]
    | rw [step_eq_verb doc b k t h1 h2, goldOf_eq_verb t h1 h2]
    | rw [step_eq_noun doc b k t h1 h2 h3, goldOf_eq_noun t h1 h2 h3]
    | rw [step_eq_pron doc b k t h1 h2 h3 h4, goldOf_eq_pron t h1 h2 h3 h4]
    | rw [step_eq_adj doc b k t h1 h2 h3 h4 h5, goldOf_eq_adj t h1 h2 h3 h4 h5]
    | rw [step_eq_adv doc b k t h1 h2 h3 h4 h5 h6, goldOf_eq_adv t h1 h2 h3 h4 h5 h6]
    | rw [step_eq_prep doc b k t h1 h2 h3 h4 h5 h6 h7, goldOf_eq_prep t h1 h2 h3 h4 h5 h6 h7]
    | rw [step_eq_conj doc b k t h1 h2 h3 h4 h5 h6 h7 h8, goldOf_eq_conj t h1 h2 h3 h4 h5 h6 h7 h8]
    | rw [step_eq_intj doc b k t h1 h2 h3 h4 h5 h6 h7 h8 h9, goldOf_eq_intj t h1 h2 h3 h4 h5 h6 h7 h8 h9]
    | rw [step_eq_other doc b k t h1 h2 h3 h4 h5 h6 h7 h8 h9, goldOf_eq_other t h1 h2 h3 h4 h5 h6 h7 h8 h9]) <;>
  (first
    | (rw [if_pos rfl]; rfl)
    | (rw [if_neg (by decide), List.append_nil]; rfl))

theorem step_pronouns (doc : List Token) (b : Buckets) (p : Nat × Token) :
    (step doc b p).pronouns
      = b.pronouns ++ (if goldOf p.2 = "pronoun" then [pronoun_info p.1 p.2] else []) := by
  obtain ⟨k, t⟩ := p
  rcases dispatch_cases t with h1 | ⟨h1, h2⟩ | ⟨h1, h2, h3⟩ | ⟨h1, h2, h3, h4⟩
    | ⟨h1, h2, h3, h4, h5⟩ | ⟨h1, h2, h3, h4, h5, h6⟩
    | ⟨h1, h2, h3, h4, h5, h6, h7⟩ | ⟨h1, h2, h3, h4, h5, h6, h7, h8⟩
    | ⟨h1, h2, h3, h4, h5, h6, h7, h8, h9⟩
    | ⟨h1, h2, h3, h4, h5, h6, h7, h8, h9⟩ <;>
  (first
    | rw [step_eq_aux doc b k t h1, goldOf_eq_aux t h1]
    | rw [step_eq_verb doc b k t h1 h2, goldOf_eq_verb t h1 h2]
    | rw [step_eq_noun doc b k t h1 h2 h3, goldOf_eq_noun t h1 h2 h3]
    | rw [step_eq_pron doc b k t h1 h2 h3 h4, goldOf_eq_pron t h1 h2 h3 h4]
    | rw [step_eq_adj doc b k t h1 h2 h3 h4 h5, goldOf_eq_adj t h1 h2 h3 h4 h5]
    | rw [step_eq_adv doc b k t h1 h2 h3 h4 h5 h6, goldOf_eq_adv t h1 h2 h3 h4 h5 h6]
    | rw [step_eq_prep doc b k t h1 h2 h3 h4 h5 h6 h7, goldOf_eq_prep t h1 h2 h3 h4 h5 h6 h7]
    | rw [step_eq_conj doc b k t h1 h2 h3 h4 h5 h6 h7 h8, goldOf_eq_conj t h1 h2 h3 h4 h5 h6 h7 h8]
    | rw [step_eq_intj doc b k t h1 h2 h3 h4 h5 h6 h7 h8 h9, goldOf_eq_intj t h1 h2 h3 h4 h5 h6 h7 h8 h9]
    | rw [step_eq_other doc b k t h1 h2 h3 h4 h5 h6 h7 h8 h9, goldOf_eq_other t h1 h2 h3 h4 h5 h6 h7 h8 h9]) <;>
  (first
    | (rw [if_pos rfl]; rfl)
    | (rw [if_neg (by decide), List.append_nil]; rfl))

theorem step_adjectives (doc : List Token) (b : Buckets) (p : Nat × Token) :
    (step doc b p).adjectives
      = b.adjectives
        ++ (if goldOf p.2 = "adjective" then [adjective_info p.1 p.2] else []) := by
  obtain ⟨k, t⟩ := p
  rcases dispatch_cases t with h1 | ⟨h1, h2⟩ | ⟨h1, h2, h3⟩ | ⟨h1, h2, h3, h4⟩
    | ⟨h1, h2, h3, h4, h5⟩ | ⟨h1, h2, h3, h4, h5, h6⟩
    | ⟨h1, h2, h3, h4, h5, h6, h7⟩ | ⟨h1, h2, h3, h4, h5, h6, h7, h8⟩
    | ⟨h1, h2, h3, h4, h5, h6, h7, h8, h9⟩
    | ⟨h1, h2, h3, h4, h5, h6, h7, h8, h9⟩ <;>
  (first
    | rw [step_eq_aux doc b k t h1, goldOf_eq_aux t h1]
    | rw [step_eq_verb doc b k t h1 h2, goldOf_eq_verb t h1 h2]
    | rw [step_eq_noun doc b k t h1 h2 h3, goldOf_eq_noun t h1 h2 h3]
    | rw [step_eq_pron doc b k t h1 h2 h3 h4, goldOf_eq_pron t h1 h2 h3 h4]
    | rw [step_eq_adj doc b k t h1 h2 h3 h4 h5, goldOf_eq_adj t h1 h2 h3 h4 h5]
    | rw [step_eq_adv doc b k t h1 h2 h3 h4 h5 h6, goldOf_eq_adv t h1 h2 h3 h4 h5 h6]
    | rw [step_eq_prep doc b k t h1 h2 h3 h4 h5 h6 h7, goldOf_eq_prep t h1 h2 h3 h4 h5 h6 h7]
    | rw [step_eq_conj doc b k t h1 h2 h3 h4 h5 h6 h7 h8, goldOf_eq_conj t h1 h2 h3 h4 h5 h6 h7 h8]
    | rw [step_eq_intj doc b k t h1 h2 h3 h4 h5 h6 h7 h8 h9, goldOf_eq_intj t h1 h2 h3 h4 h5 h6 h7 h8 h9]
    | rw [step_eq_other doc b k t h1 h2 h3 h4 h5 h6 h7 h8 h9, goldOf_eq_other t h1 h2 h3 h4 h5 h6 h7 h8 h9]) <;>
  (first
    | (rw [if_pos rfl]; rfl)
    | (rw [if_neg (by decide), List.append_nil]; rfl))

theorem step_adverbs (doc : List Token) (b : Buckets) (p : Nat × Token) :
    (step doc b p).adverbs
      = b.adverbs
        ++ (if goldOf p.2 = "adverb" then [adverb_info doc p.1 p.2] else []) := by
  obtain ⟨k, t⟩ := p
  rcases dispatch_cases t with h1 | ⟨h1, h2⟩ | ⟨h1, h2, h3⟩ | ⟨h1, h2, h3, h4⟩
    | ⟨h1, h2, h3, h4, h5⟩ | ⟨h1, h2, h3, h4, h5, h6⟩
    | ⟨h1, h2, h3, h4, h5, h6, h7⟩ | ⟨h1, h2, h3, h4, h5, h6, h7, h8⟩
    | ⟨h1, h2, h3, h4, h5, h6, h7, h8, h9⟩
    | ⟨h1, h2, h3, h4, h5, h6, h7, h8, h9⟩ <;>
  (first
    | rw [step_eq_aux doc b k t h1, goldOf_eq_aux t h1]
    | rw [step_eq_verb doc b k t h1 h2, goldOf_eq_verb t h1 h2]
    | rw [step_eq_noun doc b k t h1 h2 h3, goldOf_eq_noun t h1 h2 h3]
    | rw [step_eq_pron doc b k t h1 h2 h3 h4, goldOf_eq_pron t h1 h2 h3 h4]
    | rw [step_eq_adj doc b k t h1 h2 h3 h4 h5, goldOf_eq_adj t h1 h2 h3 h4 h5]
    | rw [step_eq_adv doc b k t h1 h2 h3 h4 h5 h6, goldOf_eq_adv t h1 h2 h3 h4 h5 h6]
    | rw [step_eq_prep doc b k t h1 h2 h3 h4 h5 h6 h7, goldOf_eq_prep t h1 h2 h3 h4 h5 h6 h7]
    | rw [step_eq_conj doc b k t h1 h2 h3 h4 h5 h6 h7 h8, goldOf_eq_conj t h1 h2 h3 h4 h5 h6 h7 h8]
    | rw [step_eq_intj doc b k t h1 h2 h3 h4 h5 h6 h7 h8 h9, goldOf_eq_intj t h1 h2 h3 h4 h5 h6 h7 h8 h9]
    | rw [step_eq_other doc b k t h1 h2 h3 h4 h5 h6 h7 h8 h9, goldOf_eq_other t h1 h2 h3 h4 h5 h6 h7 h8 h9]) <;>
  (first
    | (rw [if_pos rfl]; rfl)
    | (rw [if_neg (by decide), List.append_nil]; rfl))

theorem step_prepositions (doc : List Token) (b : Buckets) (p : Nat × Token) :
    (step doc b p).prepositions
      = b.prepositions
        ++ (if goldOf p.2 = "preposition" then [preposition_info p.1 p.2] else []) := by
  obtain ⟨k, t⟩ := p
  rcases dispatch_cases t with h1 | ⟨h1, h2⟩ | ⟨h1, h2, h3⟩ | ⟨h1, h2, h3, h4⟩
    | ⟨h1, h2, h3, h4, h5⟩ | ⟨h1, h2, h3, h4, h5, h6⟩
    | ⟨h1, h2, h3, h4, h5, h6, h7⟩ | ⟨h1, h2, h3, h4, h5, h6, h7, h8⟩
    | ⟨h1, h2, h3, h4, h5, h6, h7, h8, h9⟩
    | ⟨h1, h2, h3, h4, h5, h6, h7, h8, h9⟩ <;>
  (first
    | rw [step_eq_aux doc b k t h1, goldOf_eq_aux t h1]
    | rw [step_eq_verb doc b k t h1 h2, goldOf_eq_verb t h1 h2]
    | rw [step_eq_noun doc b k t h1 h2 h3, goldOf_eq_noun t h1 h2 h3]
    | rw [step_eq_pron doc b k t h1 h2 h3 h4, goldOf_eq_pron t h1 h2 h3 h4]
    | rw [step_eq_adj doc b k t h1 h2 h3 h4 h5, goldOf_eq_adj t h1 h2 h3 h4 h5]
    | rw [step_eq_adv doc b k t h1 h2 h3 h4 h5 h6, goldOf_eq_adv t h1 h2 h3 h4 h5 h6]
    | rw [step_eq_prep doc b k t h1 h2 h3 h4 h5 h6 h7, goldOf_eq_prep t h1 h2 h3 h4 h5 h6 h7]
    | rw [step_eq_conj doc b k t h1 h2 h3 h4 h5 h6 h7 h8, goldOf_eq_conj t h1 h2 h3 h4 h5 h6 h7 h8]
    | rw [step_eq_intj doc b k t h1 h2 h3 h4 h5 h6 h7 h8 h9, goldOf_eq_intj t h1 h2 h3 h4 h5 h6 h7 h8 h9]
    | rw [step_eq_other doc b k t h1 h2 h3 h4 h5 h6 h7 h8 h9, goldOf_eq_other t h1 h2 h3 h4 h5 h6 h7 h8 h9]) <;>
  (first
    | (rw [if_pos rfl]; rfl)
    | (rw [if_neg (by decide), List.append_nil]; rfl))

theorem step_conjunctions (doc : List Token) (b : Buckets) (p : Nat × Token) :
    (step doc b p).conjunctions
      = b.conjunctions
        ++ (if goldOf p.2 = "conjunction" then [conjunction_info p.1 p.2] else []) := by
  obtain ⟨k, t⟩ := p
  rcases dispatch_cases t with h1 | ⟨h1, h2⟩ | ⟨h1, h2, h3⟩ | ⟨h1, h2, h3, h4⟩
    | ⟨h1, h2, h3, h4, h5⟩ | ⟨h1, h2, h3, h4, h5, h6⟩
    | ⟨h1, h2, h3, h4, h5, h6, h7⟩ | ⟨h1, h2, h3, h4, h5, h6, h7, h8⟩
    | ⟨h1, h2, h3, h4, h5, h6, h7, h8, h9⟩
    | ⟨h1, h2, h3, h4, h5, h6, h7, h8, h9⟩ <;>
  (first
    | rw [step_eq_aux doc b k t h1, goldOf_eq_aux t h1]
    | rw [step_eq_verb doc b k t h1 h2, goldOf_eq_verb t h1 h2]
    | rw [step_eq_noun doc b k t h1 h2 h3, goldOf_eq_noun t h1 h2 h3]
    | rw [step_eq_pron doc b k t h1 h2 h3 h4, goldOf_eq_pron t h1 h2 h3 h4]
    | rw [step_eq_adj doc b k t h1 h2 h3 h4 h5, goldOf_eq_adj t h1 h2 h3 h4 h5]
    | rw [step_eq_adv doc b k t h1 h2 h3 h4 h5 h6, goldOf_eq_adv t h1 h2 h3 h4 h5 h6]
    | rw [step_eq_prep doc b k t h1 h2 h3 h4 h5 h6 h7, goldOf_eq_prep t h1 h2 h3 h4 h5 h6 h7]
    | rw [step_eq_conj doc b k t h1 h2 h3 h4 h5 h6 h7 h8, goldOf_eq_conj t h1 h2 h3 h4 h5 h6 h7 h8]
    | rw [step_eq_intj doc b k t h1 h2 h3 h4 h5 h6 h7 h8 h9, goldOf_eq_intj t h1 h2 h3 h4 h5 h6 h7 h8 h9]
    | rw [step_eq_other doc b k t h1 h2 h3 h4 h5 h6 h7 h8 h9, goldOf_eq_other t h1 h2 h3 h4 h5 h6 h7 h8 h9]) <;>
  (first
    | (rw [if_pos rfl]; rfl)
    | (rw [if_neg (by decide), List.append_nil]; rfl))

theorem step_interjections (doc : List Token) (b : Buckets) (p : Nat × Token) :
    (step doc b p).interjections
      = b.interjections
        ++ (if goldOf p.2 = "interjection" then [interjection_info p.1 p.2] else []) := by
  obtain ⟨k, t⟩ := p
  rcases dispatch_cases t with h1 | ⟨h1, h2⟩ | ⟨h1, h2, h3⟩ | ⟨h1, h2, h3, h4⟩
    | ⟨h1, h2, h3, h4, h5⟩ | ⟨h1, h2, h3, h4, h5, h6⟩
    | ⟨h1, h2, h3, h4, h5, h6, h7⟩ | ⟨h1, h2, h3, h4, h5, h6, h7, h8⟩
    | ⟨h1, h2, h3, h4, h5, h6, h7, h8, h9⟩
    | ⟨h1, h2, h3, h4, h5, h6, h7, h8, h9⟩ <;>
  (first
    | rw [step_eq_aux doc b k t h1, goldOf_eq_aux t h1]
    | rw [step_eq_verb doc b k t h1 h2, goldOf_eq_verb t h1 h2]
    | rw [step_eq_noun doc b k t h1 h2 h3, goldOf_eq_noun t h1 h2 h3]
    | rw [step_eq_pron doc b k t h1 h2 h3 h4, goldOf_eq_pron t h1 h2 h3 h4]
    | rw [step_eq_adj doc b k t h1 h2 h3 h4 h5, goldOf_eq_adj t h1 h2 h3 h4 h5]
    | rw [step_eq_adv doc b k t h1 h2 h3 h4 h5 h6, goldOf_eq_adv t h1 h2 h3 h4 h5 h6]
    | rw [step_eq_prep doc b k t h1 h2 h3 h4 h5 h6 h7, goldOf_eq_prep t h1 h2 h3 h4 h5 h6 h7]
    | rw [step_eq_conj doc b k t h1 h2 h3 h4 h5 h6 h7 h8, goldOf_eq_conj t h1 h2 h3 h4 h5 h6 h7 h8]
    | rw [step_eq_intj doc b k t h1 h2 h3 h4 h5 h6 h7 h8 h9, goldOf_eq_intj t h1 h2 h3 h4 h5 h6 h7 h8 h9]
    | rw [step_eq_other doc b k t h1 h2 h3 h4 h5 h6 h7 h8 h9, goldOf_eq_other t h1 h2 h3 h4 h5 h6 h7 h8 h9]) <;>
  (first
    | (rw [if_pos rfl]; rfl)
    | (rw [if_neg (by decide), List.append_nil]; rfl))

theorem foldl_pos_labels (doc : List Token) (l : List (Nat × Token)) (b : Buckets) :
    (l.foldl (step doc) b).pos_labels
      = b.pos_labels ++ l.map (fun p => label_of doc p.1 p.2) := by
  induction l generalizing b with
  | nil => simp
  | cons p l ih => rw [List.foldl_cons, ih, step_pos_labels]; simp

theorem foldl_verbs (doc : List Token) (l : List (Nat × Token)) (b : Buckets) :
    (l.foldl (step doc) b).verbs
      = b.verbs ++ (l.filter (fun p => goldOf p.2 == "verb")).map
          (fun p => verb_record doc p.1 p.2) := by
  induction l generalizing b with
  | nil => simp
  | cons p l ih =>
    rw [List.foldl_cons, ih, step_verbs]
    by_cases h : goldOf p.2 = "verb" <;>
      simp [h, List.filter_cons, List.append_assoc]

theorem foldl_auxiliaries (doc : List Token) (l : List (Nat × Token)) (b : Buckets) :
    (l.foldl (step doc) b).auxiliaries
      = b.auxiliaries ++ (l.filter (fun p => goldOf p.2 == "auxiliary")).map
          (fun p => aux_record doc p.1 p.2) := by
  induction l generalizing b with
  | nil => simp
  | cons p l ih =>
    rw [List.foldl_cons, ih, step_auxiliaries]
    by_cases h : goldOf p.2 = "auxiliary" <;>
      simp [h, List.filter_cons, List.append_assoc]

theorem foldl_nouns (doc : List Token) (l : List (Nat × Token)) (b : Buckets) :
    (l.foldl (step doc) b).nouns
      = b.nouns ++ (l.filter (fun p => goldOf p.2 == "noun")).map
          (fun p => noun_info doc p.1 p.2) := by
  induction l generalizing b with
  | nil => simp
  | cons p l ih =>
    rw [List.foldl_cons, ih, step_nouns]
    by_cases h : goldOf p.2 = "noun" <;>
      simp [h, List.filter_cons, List.append_assoc]

theorem foldl_pronouns (doc : List Token) (l : List (Nat × Token)) (b : Buckets) :
    (l.foldl (step doc) b).pronouns
      = b.pronouns ++ (l.filter (fun p => goldOf p.2 == "pronoun")).map
          (fun p => pronoun_info p.1 p.2) := by
  induction l generalizing b with
  | nil => simp
  | cons p l ih =>
    rw [List.foldl_cons, ih, step_pronouns]
    by_cases h : goldOf p.2 = "pronoun" <;>
      simp [h, List.filter_cons, List.append_assoc]

theorem foldl_adjectives (doc : List Token) (l : List (Nat × Token)) (b : Buckets) :
    (l.foldl (step doc) b).adjectives
      = b.adjectives ++ (l.filter (fun p => goldOf p.2 == "adjective")).map
          (fun p => adjective_info p.1 p.2) := by
  induction l generalizing b with
  | nil => simp
  | cons p l ih =>
    rw [List.foldl_cons, ih, step_adjectives]
    by_cases h : goldOf p.2 = "adjective" <;>
      simp [h, List.filter_cons, List.append_assoc]

theorem foldl_adverbs (doc : List Token) (l : List (Nat × Token)) (b : Buckets) :
    (l.foldl (step doc) b).adverbs
      = b.adverbs ++ (l.filter (fun p => goldOf p.2 == "adverb")).map
          (fun p => adverb_info doc p.1 p.2) := by
  induction l generalizing b with
  | nil => simp
  | cons p l ih =>
    rw [List.foldl_cons, ih, step_adverbs]
    by_cases h : goldOf p.2 = "adverb" <;>
      simp [h, List.filter_cons, List.append_assoc]

theorem foldl_prepositions (doc : List Token) (l : List (Nat × Token)) (b : Buckets) :
    (l.foldl (step doc) b).prepositions
      = b.prepositions ++ (l.filter (fun p => goldOf p.2 == "preposition")).map
          (fun p => preposition_info p.1 p.2) := by
  induction l generalizing b with
  | nil => simp
  | cons p l ih =>
    rw [List.foldl_cons, ih, step_prepositions]
    by_cases h : goldOf p.2 = "preposition" <;>
      simp [h, List.filter_cons, List.append_assoc]

theorem foldl_conjunctions (doc : List Token) (l : List (Nat × Token)) (b : Buckets) :
    (l.foldl (step doc) b).conjunctions
      = b.conjunctions ++ (l.filter (fun p => goldOf p.2 == "conjunction")).map
          (fun p => conjunction_info p.1 p.2) := by
  induction l generalizing b with
  | nil => simp
  | cons p l ih =>
    rw [List.foldl_cons, ih, step_conjunctions]
    by_cases h : goldOf p.2 = "conjunction" <;>
      simp [h, List.filter_cons, List.append_assoc]

theorem foldl_interjections (doc : List Token) (l : List (Nat × Token)) (b : Buckets) :
    (l.foldl (step doc) b).interjections
      = b.interjections ++ (l.filter (fun p => goldOf p.2 == "interjection")).map
          (fun p => interjection_info p.1 p.2) := by
  induction l generalizing b with
  | nil => simp
  | cons p l ih =>
    rw [List.foldl_cons, ih, step_interjections]
    by_cases h : goldOf p.2 = "interjection" <;>
      simp [h, List.filter_cons, List.append_assoc]

theorem analyze_pos_labels (d : Doc) :
    (analyze d).pos_labels
      = d.tokens.enum.map (fun p => label_of d.tokens p.1 p.2) := by
  show (run_buckets d.tokens).pos_labels = _
  rw [run_buckets, foldl_pos_labels]
  rfl

theorem analyze_verbs (d : Doc) :
    (analyze d).verbs
      = (d.tokens.enum.filter (fun p => goldOf p.2 == "verb")).map
          (fun p => verb_record d.tokens p.1 p.2) := by
  show (run_buckets d.tokens).verbs = _
  rw [run_buckets, foldl_verbs]
  rfl

theorem analyze_auxiliaries (d : Doc) :
    (analyze d).auxiliaries
      = (d.tokens.enum.filter (fun p => goldOf p.2 == "auxiliary")).map
          (fun p => aux_record d.tokens p.1 p.2) := by
  show (run_buckets d.tokens).auxiliaries = _
  rw [run_buckets, foldl_auxiliaries]
  rfl

theorem analyze_nouns (d : Doc) :
    (analyze d).nouns
      = (d.tokens.enum.filter (fun p => goldOf p.2 == "noun")).map
          (fun p => noun_info d.tokens p.1 p.2) := by
  show (run_buckets d.tokens).nouns = _
  rw [run_buckets, foldl_nouns]
  rfl

theorem analyze_pronouns (d : Doc) :
    (analyze d).pronouns
      = (d.tokens.enum.filter (fun p => goldOf p.2 == "pronoun")).map
          (fun p => pronoun_info p.1 p.2) := by
  show (run_buckets d.tokens).pronouns = _
  rw [run_buckets, foldl_pronouns]
  rfl

theorem analyze_adjectives (d : Doc) :
    (analyze d).adjectives
      = (d.tokens.enum.filter (fun p => goldOf p.2 == "adjective")).map
          (fun p => adjective_info p.1 p.2) := by
  show (run_buckets d.tokens).adjectives = _
  rw [run_buckets, foldl_adjectives]
  rfl

theorem analyze_adverbs (d : Doc) :
    (analyze d).adverbs
      = (d.tokens.enum.filter (fun p => goldOf p.2 == "adverb")).map
          (fun p => adverb_info d.tokens p.1 p.2) := by
  show (run_buckets d.tokens).adverbs = _
  rw [run_buckets, foldl_adverbs]
  rfl

theorem analyze_prepositions (d : Doc) :
    (analyze d).prepositions
      = (d.tokens.enum.filter (fun p => goldOf p.2 == "preposition")).map
          (fun p => preposition_info p.1 p.2) := by
  show (run_buckets d.tokens).prepositions = _
  rw [run_buckets, foldl_prepositions]
  rfl

theorem analyze_conjunctions (d : Doc) :
    (analyze d).conjunctions
      = (d.tokens.enum.filter (fun p => goldOf p.2 == "conjunction")).map
          (fun p => conjunction_info p.1 p.2) := by
  show (run_buckets d.tokens).conjunctions = _
  rw [run_buckets, foldl_conjunctions]
  rfl

theorem analyze_interjections (d : Doc) :
    (analyze d).interjections
      = (d.tokens.enum.filter (fun p => goldOf p.2 == "interjection")).map
          (fun p => interjection_info p.1 p.2) := by
  show (run_buckets d.tokens).interjections = _
  rw [run_buckets, foldl_interjections]
  rfl

theorem filter_enumFrom_fst_lt {α : Type} (l : List α) (g : Nat × α → Bool) :
    ∀ (s k : Nat), k < s →
      (l.enumFrom s).filter (fun p => (p.1 == k) && g p) = [] := by
  induction l with
  | nil => intro s k _; rfl
  | cons a tl ih =>
    intro s k hk
    rw [show (a :: tl).enumFrom s = (s, a) :: tl.enumFrom (s + 1) from rfl,
      List.filter_cons]
    have hs : ¬(s = k) := ne_of_gt hk
    simp only [hs, beq_iff_eq, Bool.false_and, if_neg, decide_eq_true_eq,
      Bool.and_eq_true, false_and, if_false]
    exact ih (s + 1) k (Nat.lt_succ_of_lt hk)

theorem filter_enumFrom_fst {α : Type} (l : List α) (g : Nat × α → Bool) :
    ∀ (s j : Nat) (hj : j < l.length),
      (l.enumFrom s).filter (fun p => (p.1 == s + j) && g p)
        = if g (s + j, l.get ⟨j, hj⟩) then [(s + j, l.get ⟨j, hj⟩)] else [] := by
  induction l with
  | nil => intro s j hj; exact absurd hj (by simp)
  | cons a tl ih =>
    intro s j hj
    match j with
    | 0 =>
      rw [show (a :: tl).enumFrom s = (s, a) :: tl.enumFrom (s + 1) from rfl,
        List.filter_cons, Nat.add_zero]
      rw [filter_enumFrom_fst_lt tl g (s + 1) s (Nat.lt_succ_self s)]
      by_cases hg : g (s, a) = true
      · simp [hg]
      · simp [hg]
    | j + 1 =>
      rw [show (a :: tl).enumFrom s = (s, a) :: tl.enumFrom (s + 1) from rfl,
        List.filter_cons]
      have hne : ¬(s = s + (j + 1)) := by omega
      have hstep : s + (j + 1) = (s + 1) + j := by omega
      simp only [hne, beq_iff_eq, Bool.and_eq_true, false_and, if_false,
        decide_eq_true_eq]
      rw [hstep, ih (s + 1) j (Nat.lt_of_succ_lt_succ hj)]
      rfl

theorem filter_enum_fst {α : Type} (l : List α) (g : Nat × α → Bool) (k : Nat)
    (hk : k < l.length) :
    l.enum.filter (fun p => (p.1 == k) && g p)
      = if g (k, l.get ⟨k, hk⟩) then [(k, l.get ⟨k, hk⟩)] else [] := by
  have h := filter_enumFrom_fst l g 0 k hk
  rw [Nat.zero_add] at h
  exact h

theorem length_filter_enum_fst {α : Type} (l : List α) (g : Nat × α → Bool)
    (k : Nat) (hk : k < l.length) :
    (l.enum.filter (fun p => (p.1 == k) && g p)).length
      = if g (k, l.get ⟨k, hk⟩) then 1 else 0 := by
  rw [filter_enum_fst l g k hk]
  by_cases hg : g (k, l.get ⟨k, hk⟩) = true
  · rw [if_pos hg, if_pos hg]; rfl
  · rw [if_neg hg, if_neg hg]; rfl

theorem mem_map_fst_filter_enum {α : Type} (l : List α) (g : Nat × α → Bool)
    (k : Nat) (hk : k < l.length) :
    (k ∈ (l.enum.filter g).map Prod.fst) ↔ g (k, l.get ⟨k, hk⟩) = true := by
  constructor
  · rintro hmem
    rcases List.mem_map.mp hmem with ⟨p, hp, hfst⟩
    rcases List.mem_filter.mp hp with ⟨henum, hg⟩
    have hsome := List.mem_enum_iff_getElem?.mp henum
    subst hfst
    rw [List.getElem?_eq_getElem hk] at hsome
    have : p.2 = l.get ⟨p.1, hk⟩ := by
      injection hsome with h
      exact h.symm
    rw [show p = (p.1, l.get ⟨p.1, hk⟩) from Prod.ext rfl this] at hg
    exact hg
  · intro hg
    refine List.mem_map.mpr ⟨(k, l.get ⟨k, hk⟩), List.mem_filter.mpr ⟨?_, hg⟩, rfl⟩
    exact List.mem_enum_iff_getElem?.mpr (by rw [List.getElem?_eq_getElem hk]; rfl)

theorem pronoun_info_i (k : Nat) (t : Token) : (pronoun_info k t).i = k := by
  simp only [pronoun_info]
  repeat' split
  all_goals rfl

theorem label_of_i (doc : List Token) (k : Nat) (t : Token) :
    (label_of doc k t).i = k := by
  rcases dispatch_cases t with h1 | ⟨h1, h2⟩ | ⟨h1, h2, h3⟩ | ⟨h1, h2, h3, h4⟩
    | ⟨h1, h2, h3, h4, h5⟩ | ⟨h1, h2, h3, h4, h5, h6⟩
    | ⟨h1, h2, h3, h4, h5, h6, h7⟩ | ⟨h1, h2, h3, h4, h5, h6, h7, h8⟩
    | ⟨h1, h2, h3, h4, h5, h6, h7, h8, h9⟩
    | ⟨h1, h2, h3, h4, h5, h6, h7, h8, h9⟩ <;>
  (first
    | rw [label_of_eq_aux doc k t h1]
    | rw [label_of_eq_verb doc k t h1 h2]
    | rw [label_of_eq_noun doc k t h1 h2 h3]
    | rw [label_of_eq_pron doc k t h1 h2 h3 h4]
    | rw [label_of_eq_adj doc k t h1 h2 h3 h4 h5]
    | rw [label_of_eq_adv doc k t h1 h2 h3 h4 h5 h6]
    | rw [label_of_eq_prep doc k t h1 h2 h3 h4 h5 h6 h7]
    | rw [label_of_eq_conj doc k t h1 h2 h3 h4 h5 h6 h7 h8]
    | rw [label_of_eq_intj doc k t h1 h2 h3 h4 h5 h6 h7 h8 h9]
    | rw [label_of_eq_other doc k t h1 h2 h3 h4 h5 h6 h7 h8 h9]) <;>
  rfl

theorem label_of_gold (doc : List Token) (k : Nat) (t : Token) :
    (label_of doc k t).gold = goldOf t := by
  rcases dispatch_cases t with h1 | ⟨h1, h2⟩ | ⟨h1, h2, h3⟩ | ⟨h1, h2, h3, h4⟩
    | ⟨h1, h2, h3, h4, h5⟩ | ⟨h1, h2, h3, h4, h5, h6⟩
    | ⟨h1, h2, h3, h4, h5, h6, h7⟩ | ⟨h1, h2, h3, h4, h5, h6, h7, h8⟩
    | ⟨h1, h2, h3, h4, h5, h6, h7, h8, h9⟩
    | ⟨h1, h2, h3, h4, h5, h6, h7, h8, h9⟩ <;>
  (first
    | rw [label_of_eq_aux doc k t h1, goldOf_eq_aux t h1]
    | rw [label_of_eq_verb doc k t h1 h2, goldOf_eq_verb t h1 h2]
    | rw [label_of_eq_noun doc k t h1 h2 h3, goldOf_eq_noun t h1 h2 h3]
    | rw [label_of_eq_pron doc k t h1 h2 h3 h4, goldOf_eq_pron t h1 h2 h3 h4]
    | rw [label_of_eq_adj doc k t h1 h2 h3 h4 h5, goldOf_eq_adj t h1 h2 h3 h4 h5]
    | rw [label_of_eq_adv doc k t h1 h2 h3 h4 h5 h6, goldOf_eq_adv t h1 h2 h3 h4 h5 h6]
    | rw [label_of_eq_prep doc k t h1 h2 h3 h4 h5 h6 h7, goldOf_eq_prep t h1 h2 h3 h4 h5 h6 h7]
    | rw [label_of_eq_conj doc k t h1 h2 h3 h4 h5 h6 h7 h8, goldOf_eq_conj t h1 h2 h3 h4 h5 h6 h7 h8]
    | rw [label_of_eq_intj doc k t h1 h2 h3 h4 h5 h6 h7 h8 h9, goldOf_eq_intj t h1 h2 h3 h4 h5 h6 h7 h8 h9]
    | rw [label_of_eq_other doc k t h1 h2 h3 h4 h5 h6 h7 h8 h9, goldOf_eq_other t h1 h2 h3 h4 h5 h6 h7 h8 h9]) <;>
  rfl

theorem bucket_count {β : Type} (mk : Nat × Token → β) (getI : β → Nat)
    (hmk : ∀ p, getI (mk p) = p.1) (q : Nat × Token → Bool)
    (l : List Token) (k : Nat) (hk : k < l.length) :
    (((l.enum.filter q).map mk).filter (fun r => getI r == k)).length
      = if q (k, l.get ⟨k, hk⟩) then 1 else 0 := by
  rw [List.filter_map, List.length_map]
  have hcong : (l.enum.filter q).filter ((fun r => getI r == k) ∘ mk)
      = (l.enum.filter q).filter (fun p => p.1 == k) := by
    apply List.filter_congr
    intro p _
    simp [Function.comp, hmk p]
  rw [hcong, List.filter_filter]
  exact length_filter_enum_fst l q k hk

theorem bucket_mem {β : Type} (mk : Nat × Token → β) (getI : β → Nat)
    (hmk : ∀ p, getI (mk p) = p.1) (q : Nat × Token → Bool)
    (l : List Token) (k : Nat) (hk : k < l.length) :
    (k ∈ ((l.enum.filter q).map mk).map getI)
      ↔ q (k, l.get ⟨k, hk⟩) = true := by
  rw [List.map_map, show getI ∘ mk = Prod.fst from funext hmk]
  exact mem_map_fst_filter_enum l q k hk

theorem other_hits_count (doc : List Token) (k : Nat) (hk : k < doc.length) :
    ((doc.enum.map (fun p => label_of doc p.1 p.2)).filter
        (fun lb => lb.i == k && lb.gold == "other")).length
      = if goldOf (doc.get ⟨k, hk⟩) == "other" then 1 else 0 := by
  rw [List.filter_map, List.length_map]
  have hcong : doc.enum.filter
        ((fun lb => lb.i == k && lb.gold == "other")
          ∘ fun p => label_of doc p.1 p.2)
      = doc.enum.filter (fun p => (p.1 == k) && (goldOf p.2 == "other")) := by
    apply List.filter_congr
    intro p _
    simp [Function.comp, label_of_i, label_of_gold]
  rw [hcong]
  exact length_filter_enum_fst doc (fun p => goldOf p.2 == "other") k hk

/-- Number of records carrying token index `k` across the nine bucket
outputs of `analyze`. -/
def bucket_hits (out : AnalyzeOut) (k : Nat) : Nat :=
  (out.verbs.filter (fun r => r.i == k)).length
    + (out.auxiliaries.filter (fun r => r.i == k)).length
    + (out.nouns.filter (fun r => r.i == k)).length
    + (out.pronouns.filter (fun r => r.i == k)).length
    + (out.adjectives.filter (fun r => r.i == k)).length
    + (out.adverbs.filter (fun r => r.i == k)).length
    + (out.prepositions.filter (fun r => r.i == k)).length
    + (out.conjunctions.filter (fun r => r.i == k)).length
    + (out.interjections.filter (fun r => r.i == k)).length

/-- Number of `pos_labels` entries labelling token index `k` as `"other"`. -/
def other_hits (out : AnalyzeOut) (k : Nat) : Nat :=
  (out.pos_labels.filter (fun lb => lb.i == k && lb.gold == "other")).length

/-! ### Claims -/

/-- C1: for every input token sequence, the `analyze` dispatcher places
every token index in exactly one of the nine named buckets or labels it
"other" in `pos_labels` — never zero and never more than one, with no
duplicate index across buckets: the total number of bucket records plus
"other" labels carrying index `k` is exactly one. -/
theorem C1_partition (d : Doc) (k : Nat) (hk : k < d.tokens.length) :
    bucket_hits (analyze d) k + other_hits (analyze d) k = 1 := by
  unfold bucket_hits other_hits
  rw [analyze_verbs, analyze_auxiliaries, analyze_nouns, analyze_pronouns,
    analyze_adjectives, analyze_adverbs, analyze_prepositions,
    analyze_conjunctions, analyze_interjections, analyze_pos_labels]
  rw [bucket_count (fun p => verb_record d.tokens p.1 p.2) VerbRecord.i
      (fun p => rfl) (fun p => goldOf p.2 == "verb") d.tokens k hk,
    bucket_count (fun p => aux_record d.tokens p.1 p.2) AuxRecord.i
      (fun p => rfl) (fun p => goldOf p.2 == "auxiliary") d.tokens k hk,
    bucket_count (fun p => noun_info d.tokens p.1 p.2) NounRecord.i
      (fun p => rfl) (fun p => goldOf p.2 == "noun") d.tokens k hk,
    bucket_count (fun p => pronoun_info p.1 p.2) PronounRecord.i
      (fun p => pronoun_info_i p.1 p.2) (fun p => goldOf p.2 == "pronoun") d.tokens k hk,
    bucket_count (fun p => adjective_info p.1 p.2) AdjRecord.i
      (fun p => rfl) (fun p => goldOf p.2 == "adjective") d.tokens k hk,
    bucket_count (fun p => adverb_info d.tokens p.1 p.2) AdvRecord.i
      (fun p => rfl) (fun p => goldOf p.2 == "adverb") d.tokens k hk,
    bucket_count (fun p => preposition_info p.1 p.2) PrepRecord.i
      (fun p => rfl) (fun p => goldOf p.2 == "preposition") d.tokens k hk,
    bucket_count (fun p => conjunction_info p.1 p.2) ConjRecord.i
      (fun p => rfl) (fun p => goldOf p.2 == "conjunction") d.tokens k hk,
    bucket_count (fun p => interjection_info p.1 p.2) IntjRecord.i
      (fun p => rfl) (fun p => goldOf p.2 == "interjection") d.tokens k hk,
    other_hits_count d.tokens k hk]
  dsimp only
  rcases dispatch_cases (d.tokens.get ⟨k, hk⟩) with h1 | ⟨h1, h2⟩ | ⟨h1, h2, h3⟩
    | ⟨h1, h2, h3, h4⟩ | ⟨h1, h2, h3, h4, h5⟩ | ⟨h1, h2, h3, h4, h5, h6⟩
    | ⟨h1, h2, h3, h4, h5, h6, h7⟩ | ⟨h1, h2, h3, h4, h5, h6, h7, h8⟩
    | ⟨h1, h2, h3, h4, h5, h6, h7, h8, h9⟩
    | ⟨h1, h2, h3, h4, h5, h6, h7, h8, h9⟩ <;>
  (first
    | rw [goldOf_eq_aux _ h1]
    | rw [goldOf_eq_verb _ h1 h2]
    | rw [goldOf_eq_noun _ h1 h2 h3]
    | rw [goldOf_eq_pron _ h1 h2 h3 h4]
    | rw [goldOf_eq_adj _ h1 h2 h3 h4 h5]
    | rw [goldOf_eq_adv _ h1 h2 h3 h4 h5 h6]
    | rw [goldOf_eq_prep _ h1 h2 h3 h4 h5 h6 h7]
    | rw [goldOf_eq_conj _ h1 h2 h3 h4 h5 h6 h7 h8]
    | rw [goldOf_eq_intj _ h1 h2 h3 h4 h5 h6 h7 h8 h9]
    | rw [goldOf_eq_other _ h1 h2 h3 h4 h5 h6 h7 h8 h9]) <;>
  decide

/-- A small concrete parsed document: "Wow! That absolutely crushed the
previous record." prefix, used to witness C1. -/
def exDocC1 : Doc :=
  { text := "Wow !",
    tokens := [⟨"Wow", "wow", "INTJ", "UH", "intj", 3, [], ""⟩,
               ⟨"!", "!", "PUNCT", ".", "punct", 3, [], ""⟩],
    hasDep := true, noun_chunks := [] }

theorem C1_partition_witness :
    0 < exDocC1.tokens.length
      ∧ bucket_hits (analyze exDocC1) 0 + other_hits (analyze exDocC1) 0 = 1 :=
  ⟨by decide, C1_partition exDocC1 0 (by decide)⟩

/-- `gold` label `g` for token index `k` agrees with bucket membership:
`g` names a bucket exactly when `k` appears among that bucket's record
indices, and `g = "other"` exactly when `k` appears in none. -/
def gold_matches_bucket (out : AnalyzeOut) (g : String) (k : Nat) : Prop :=
  (g = "verb" ↔ k ∈ out.verbs.map VerbRecord.i)
    ∧ (g = "auxiliary" ↔ k ∈ out.auxiliaries.map AuxRecord.i)
    ∧ (g = "noun" ↔ k ∈ out.nouns.map NounRecord.i)
    ∧ (g = "pronoun" ↔ k ∈ out.pronouns.map PronounRecord.i)
    ∧ (g = "adjective" ↔ k ∈ out.adjectives.map AdjRecord.i)
    ∧ (g = "adverb" ↔ k ∈ out.adverbs.map AdvRecord.i)
    ∧ (g = "preposition" ↔ k ∈ out.prepositions.map PrepRecord.i)
    ∧ (g = "conjunction" ↔ k ∈ out.conjunctions.map ConjRecord.i)
    ∧ (g = "interjection" ↔ k ∈ out.interjections.map IntjRecord.i)
    ∧ (g = "other"
        ↔ k ∉ out.verbs.map VerbRecord.i ∧ k ∉ out.auxiliaries.map AuxRecord.i
          ∧ k ∉ out.nouns.map NounRecord.i ∧ k ∉ out.pronouns.map PronounRecord.i
          ∧ k ∉ out.adjectives.map AdjRecord.i ∧ k ∉ out.adverbs.map AdvRecord.i
          ∧ k ∉ out.prepositions.map PrepRecord.i
          ∧ k ∉ out.conjunctions.map ConjRecord.i
          ∧ k ∉ out.interjections.map IntjRecord.i)

/-- C2: `analyze` produces a `pos_labels` array whose length equals the
number of tokens, whose entry at position `k` carries index `k` (same order
as the tokens), and whose `gold` field equals the bucket name the token was
placed into (or "other" for the residual). -/
theorem C2_pos_labels (d : Doc) :
    (analyze d).pos_labels.length = d.tokens.length
      ∧ ∀ (k : Nat) (hk : k < d.tokens.length),
          ∃ lb, (analyze d).pos_labels[k]? = some lb ∧ lb.i = k
            ∧ gold_matches_bucket (analyze d) lb.gold k := by
  have hlen : (analyze d).pos_labels.length = d.tokens.length := by
    rw [analyze_pos_labels, List.length_map, List.enum_length]
  refine ⟨hlen, fun k hk => ?_⟩
  refine ⟨label_of d.tokens k (d.tokens.get ⟨k, hk⟩), ?_, label_of_i _ _ _, ?_⟩
  · rw [analyze_pos_labels, List.getElem?_map, List.getElem?_enum,
      List.getElem?_eq_getElem hk]
    rfl
  · rw [label_of_gold]
    unfold gold_matches_bucket
    rw [analyze_verbs, analyze_auxiliaries, analyze_nouns, analyze_pronouns,
      analyze_adjectives, analyze_adverbs, analyze_prepositions,
      analyze_conjunctions, analyze_interjections]
    rw [bucket_mem (fun p => verb_record d.tokens p.1 p.2) VerbRecord.i
        (fun p => rfl) (fun p => goldOf p.2 == "verb") d.tokens k hk,
      bucket_mem (fun p => aux_record d.tokens p.1 p.2) AuxRecord.i
        (fun p => rfl) (fun p => goldOf p.2 == "auxiliary") d.tokens k hk,
      bucket_mem (fun p => noun_info d.tokens p.1 p.2) NounRecord.i
        (fun p => rfl) (fun p => goldOf p.2 == "noun") d.tokens k hk,
      bucket_mem (fun p => pronoun_info p.1 p.2) PronounRecord.i
        (fun p => pronoun_info_i p.1 p.2) (fun p => goldOf p.2 == "pronoun") d.tokens k hk,
      bucket_mem (fun p => adjective_info p.1 p.2) AdjRecord.i
        (fun p => rfl) (fun p => goldOf p.2 == "adjective") d.tokens k hk,
      bucket_mem (fun p => adverb_info d.tokens p.1 p.2) AdvRecord.i
        (fun p => rfl) (fun p => goldOf p.2 == "adverb") d.tokens k hk,
      bucket_mem (fun p => preposition_info p.1 p.2) PrepRecord.i
        (fun p => rfl) (fun p => goldOf p.2 == "preposition") d.tokens k hk,
      bucket_mem (fun p => conjunction_info p.1 p.2) ConjRecord.i
        (fun p => rfl) (fun p => goldOf p.2 == "conjunction") d.tokens k hk,
      bucket_mem (fun p => interjection_info p.1 p.2) IntjRecord.i
        (fun p => rfl) (fun p => goldOf p.2 == "interjection") d.tokens k hk]
    dsimp only
    rcases dispatch_cases (d.tokens.get ⟨k, hk⟩) with h1 | ⟨h1, h2⟩ | ⟨h1, h2, h3⟩
      | ⟨h1, h2, h3, h4⟩ | ⟨h1, h2, h3, h4, h5⟩ | ⟨h1, h2, h3, h4, h5, h6⟩
      | ⟨h1, h2, h3, h4, h5, h6, h7⟩ | ⟨h1, h2, h3, h4, h5, h6, h7, h8⟩
      | ⟨h1, h2, h3, h4, h5, h6, h7, h8, h9⟩
      | ⟨h1, h2, h3, h4, h5, h6, h7, h8, h9⟩ <;>
    (first
      | rw [goldOf_eq_aux _ h1]
      | rw [goldOf_eq_verb _ h1 h2]
      | rw [goldOf_eq_noun _ h1 h2 h3]
      | rw [goldOf_eq_pron _ h1 h2 h3 h4]
      | rw [goldOf_eq_adj _ h1 h2 h3 h4 h5]
      | rw [goldOf_eq_adv _ h1 h2 h3 h4 h5 h6]
      | rw [goldOf_eq_prep _ h1 h2 h3 h4 h5 h6 h7]
      | rw [goldOf_eq_conj _ h1 h2 h3 h4 h5 h6 h7 h8]
      | rw [goldOf_eq_intj _ h1 h2 h3 h4 h5 h6 h7 h8 h9]
      | rw [goldOf_eq_other _ h1 h2 h3 h4 h5 h6 h7 h8 h9]) <;>
    decide

/-- A concrete parsed document ("Dogs bark .") used to witness C2. -/
def exDocC2 : Doc :=
  { text := "Dogs bark .",
    tokens := [⟨"Dogs", "dog", "NOUN", "NNS", "nsubj", 1, [], ""⟩,
               ⟨"bark", "bark", "VERB", "VBP", "ROOT", 1, [], ""⟩,
               ⟨".", ".", "PUNCT", ".", "punct", 1, [], ""⟩],
    hasDep := true, noun_chunks := [⟨0, [0], "Dogs"⟩] }

theorem C2_pos_labels_witness :
    (analyze exDocC2).pos_labels.length = exDocC2.tokens.length
      ∧ ∃ lb, (analyze exDocC2).pos_labels[0]? = some lb ∧ lb.i = 0
          ∧ gold_matches_bucket (analyze exDocC2) lb.gold 0 :=
  ⟨(C2_pos_labels exDocC2).1, (C2_pos_labels exDocC2).2 0 (by decide)⟩

/-- C3: every token satisfying the auxiliary test that also has coarse tag
VERB is placed in the auxiliaries bucket and never in the verbs bucket
(the `pos = "VERB"` hypothesis is kept from the claim; the aux-first
priority in fact excludes every auxiliary-test token from `verbs`). -/
theorem C3_aux_priority (d : Doc) (k : Nat) (t : Token)
    (hget : d.tokens[k]? = some t) (haux : is_aux t = true)
    (hverb : t.pos = "VERB") :
    (∃ r ∈ (analyze d).auxiliaries, r.i = k)
      ∧ ∀ r ∈ (analyze d).verbs, r.i ≠ k := by
  have hk : k < d.tokens.length := (List.getElem?_eq_some.mp hget).1
  have htk : d.tokens.get ⟨k, hk⟩ = t := by
    rw [List.get_eq_getElem]
    exact (List.getElem?_eq_some.mp hget).2
  have hgold : goldOf t = "auxiliary" := goldOf_eq_aux t haux
  constructor
  · have hmem : k ∈ (analyze d).auxiliaries.map AuxRecord.i := by
      rw [analyze_auxiliaries]
      refine (bucket_mem (fun p => aux_record d.tokens p.1 p.2) AuxRecord.i
        (fun p => rfl) (fun p => goldOf p.2 == "auxiliary") d.tokens k hk).mpr ?_
      dsimp only
      rw [htk, hgold]
      decide
    rcases List.mem_map.mp hmem with ⟨r, hr, hri⟩
    exact ⟨r, hr, hri⟩
  · intro r hr hri
    have hmem : k ∈ (analyze d).verbs.map VerbRecord.i :=
      List.mem_map.mpr ⟨r, hr, hri⟩
    rw [analyze_verbs] at hmem
    have hv := (bucket_mem (fun p => verb_record d.tokens p.1 p.2) VerbRecord.i
      (fun p => rfl) (fun p => goldOf p.2 == "verb") d.tokens k hk).mp hmem
    dsimp only at hv
    rw [htk, hgold] at hv
    exact absurd hv (by decide)

/-- A concrete parsed document ("She has it .") whose main verb "has"
satisfies both the auxiliary test (lemma "have") and coarse tag VERB. -/
def exDocC3 : Doc :=
  { text := "She has it .",
    tokens := [⟨"She", "she", "PRON", "PRP", "nsubj", 1, [], ""⟩,
               ⟨"has", "have", "VERB", "VBZ", "ROOT", 1, [], ""⟩,
               ⟨"it", "it", "PRON", "PRP", "dobj", 1, [], ""⟩,
               ⟨".", ".", "PUNCT", ".", "punct", 1, [], ""⟩],
    hasDep := true, noun_chunks := [] }

theorem C3_aux_priority_witness :
    (∃ r ∈ (analyze exDocC3).auxiliaries, r.i = 1)
      ∧ ∀ r ∈ (analyze exDocC3).verbs, r.i ≠ 1 :=
  C3_aux_priority exDocC3 1 ⟨"has", "have", "VERB", "VBZ", "ROOT", 1, [], ""⟩
    (by decide) (by decide) rfl

/-- The object test exactly as the claim C4 words it: a child attached via
direct-object (dobj/obj), clausal-complement (ccomp), open-complement
(xcomp), object-predicate (oprd) or passive-subject (nsubjpass) — without
the attribute (`attr`) relation the code's `has_object` also accepts. -/
def claim_has_object (doc : List Token) (k : Nat) : Bool :=
  (children doc k).any (fun p =>
    ["dobj", "obj", "ccomp", "xcomp", "oprd", "nsubjpass"].contains p.2.dep)

/-- A parsed document ("She became doctor") whose main verb has an `attr`
child and no object-like child from the claim's list. -/
def exDocC4 : Doc :=
  { text := "She became doctor",
    tokens := [⟨"She", "she", "PRON", "PRP", "nsubj", 1, [], ""⟩,
               ⟨"became", "become", "VERB", "VBD", "ROOT", 1, [], ""⟩,
               ⟨"doctor", "doctor", "NOUN", "NN", "attr", 1, [], ""⟩],
    hasDep := true, noun_chunks := [] }

/-- C4 counterexample: the claim's transitivity criterion (without `attr`)
is falsified by the code on a verb whose only object-like child is an
`attr` child — the code marks it "transitive", the claim demands
"intransitive". -/
theorem C4_counterexample :
    ¬ (∀ (d : Doc), ∀ r ∈ (analyze d).verbs,
        (r.transitivity = "transitive" ↔ claim_has_object d.tokens r.i = true)) := by
  intro h
  have hmem : verb_record exDocC4.tokens 1
      ⟨"became", "become", "VERB", "VBD", "ROOT", 1, [], ""⟩
      ∈ (analyze exDocC4).verbs := by decide
  have hiff := h exDocC4 _ hmem
  have hobj := hiff.mp (by decide)
  exact absurd hobj (by decide)

theorem verb_record_transitivity (doc : List Token) (k : Nat) (t : Token) :
    (verb_record doc k t).transitivity
      = if has_object doc k then "transitive" else "intransitive" := rfl

/-- C4 (amended): a main-verb record is "transitive" iff the verb has a
child attached via a direct-object, attribute, clausal-complement,
open-complement, object-predicate, or passive-subject relation — i.e. iff
`has_object` holds; otherwise it is "intransitive". -/
theorem C4_transitivity (d : Doc) (r : VerbRecord)
    (hr : r ∈ (analyze d).verbs) :
    r.transitivity = "transitive" ↔ has_object d.tokens r.i = true := by
  rw [analyze_verbs] at hr
  rcases List.mem_map.mp hr with ⟨p, hp, hrec⟩
  subst hrec
  rw [show (verb_record d.tokens p.1 p.2).i = p.1 from rfl,
    verb_record_transitivity]
  by_cases h : has_object d.tokens p.1 = true
  · rw [if_pos h]
    simp [h]
  · rw [if_neg h]
    simp [h]

theorem C4_transitivity_witness :
    (verb_record exDocC4.tokens 1
        ⟨"became", "become", "VERB", "VBD", "ROOT", 1, [], ""⟩).transitivity
        = "transitive"
      ↔ has_object exDocC4.tokens
          (verb_record exDocC4.tokens 1
            ⟨"became", "become", "VERB", "VBD", "ROOT", 1, [], ""⟩).i = true :=
  C4_transitivity exDocC4 _ (by decide)

/-- The conjunction sub-type exactly as the claim C5 words it: the
conjunctive-adverb set is the nine-word one {however, therefore, moreover,
consequently, nevertheless, furthermore, thus, hence, meanwhile}. -/
def claim_conj_subtype (lem : String) : String :=
  if ["for", "and", "nor", "but", "or", "yet", "so"].contains lem then
    "coordinating"
  else if ["because", "although", "if", "when", "since", "while", "after",
           "before", "though", "unless", "until"].contains lem then
    "subordinating"
  else if ["however", "therefore", "moreover", "consequently", "nevertheless",
           "furthermore", "thus", "hence", "meanwhile"].contains lem then
    "conjunctive_adverb"
  else "other"

/-- A parsed document with a single conjunction token whose lemma is
"thus". -/
def exDocC5 : Doc :=
  { text := "thus",
    tokens := [⟨"thus", "thus", "CCONJ", "CC", "ROOT", 0, [], ""⟩],
    hasDep := true, noun_chunks := [] }

/-- C5 counterexample: on a conjunction token with lemma "thus" the code
emits sub-type "other" (its `conjunction_info` set lacks
thus/hence/meanwhile), while the claim's nine-word set demands
"conjunctive_adverb". -/
theorem C5_counterexample :
    ¬ (∀ (d : Doc), ∀ r ∈ (analyze d).conjunctions,
        r.type = claim_conj_subtype r.lemma_) := by
  intro h
  have hmem : conjunction_info 0 ⟨"thus", "thus", "CCONJ", "CC", "ROOT", 0, [], ""⟩
      ∈ (analyze exDocC5).conjunctions := by decide
  have := h exDocC5 _ hmem
  exact absurd this (by decide)

/-- The conjunction sub-type chain actually written in `conjunction_info`:
lowercased lemma against the seven-word coordinating set, the eleven-word
subordinating set, then the *six-word* conjunctive-adverb set {however,
therefore, moreover, consequently, furthermore, nevertheless}. -/
def conj_subtype (lem : String) : String :=
  if ["for", "and", "nor", "but", "or", "yet", "so"].contains lem then
    "coordinating"
  else if ["because", "although", "if", "when", "since", "while", "after",
           "before", "though", "unless", "until"].contains lem then
    "subordinating"
  else if ["however", "therefore", "moreover", "consequently", "furthermore",
           "nevertheless"].contains lem then
    "conjunctive_adverb"
  else "other"

theorem conjunction_info_type (k : Nat) (t : Token) :
    (conjunction_info k t).type = conj_subtype (str_lower t.lemma_) := by
  simp only [conjunction_info, conj_subtype]
  repeat' split
  all_goals first | rfl | (exfalso; simp_all)

/-- C5 (amended): every conjunction record's sub-type is computed from the
lowercased lemma by the chain whose conjunctive-adverb set is the six-word
set written in `conjunction_info` (without thus/hence/meanwhile). -/
theorem C5_conj_subtype (d : Doc) (r : ConjRecord)
    (hr : r ∈ (analyze d).conjunctions) :
    r.type = conj_subtype (str_lower r.lemma_) := by
  rw [analyze_conjunctions] at hr
  rcases List.mem_map.mp hr with ⟨p, hp, hrec⟩
  subst hrec
  rw [show (conjunction_info p.1 p.2).lemma_ = p.2.lemma_ from rfl]
  exact conjunction_info_type p.1 p.2

theorem C5_conj_subtype_witness :
    (conjunction_info 0 ⟨"thus", "thus", "CCONJ", "CC", "ROOT", 0, [], ""⟩).type
      = conj_subtype
          (str_lower (conjunction_info 0
            ⟨"thus", "thus", "CCONJ", "CC", "ROOT", 0, [], ""⟩).lemma_) :=
  C5_conj_subtype exDocC5 _ (by decide)

/-- C6: an auxiliary token's role follows the fixed priority chain of
`aux_role` — modal (fine tag MD or lemma in `MODALS`), else perfect (lemma
"have"), else progressive (lemma "be", head tag VBG), else passive (lemma
"be", head tag VBN), else do-support (lemma "do"), else "other" — and every
auxiliary bucket record of `analyze` carries
`role = aux_role(token, head token)`. -/
theorem C6_aux_role :
    (∀ (a h : Token),
      ((a.tag = "MD" ∨ a.lemma_ ∈ MODALS) → aux_role a h = "modal")
      ∧ (a.tag ≠ "MD" → a.lemma_ ∉ MODALS → a.lemma_ = "have" →
          aux_role a h = "perfect")
      ∧ (a.tag ≠ "MD" → a.lemma_ ∉ MODALS → a.lemma_ = "be" → h.tag = "VBG" →
          aux_role a h = "progressive")
      ∧ (a.tag ≠ "MD" → a.lemma_ ∉ MODALS → a.lemma_ = "be" → h.tag ≠ "VBG" →
          h.tag = "VBN" → aux_role a h = "passive")
      ∧ (a.tag ≠ "MD" → a.lemma_ ∉ MODALS → a.lemma_ = "do" →
          aux_role a h = "do-support")
      ∧ (a.tag ≠ "MD" → a.lemma_ ∉ MODALS → a.lemma_ ≠ "have" →
          a.lemma_ ≠ "do" →
          (a.lemma_ = "be" → h.tag ≠ "VBG" ∧ h.tag ≠ "VBN") →
          aux_role a h = "other"))
    ∧ (∀ (d : Doc) (k : Nat) (t : Token), d.tokens[k]? = some t →
        is_aux t = true →
        ∃ r ∈ (analyze d).auxiliaries, r.i = k
          ∧ r.role = aux_role t ((d.tokens[t.head]?).getD t)) := by
  constructor
  · intro a h
    refine ⟨?_, ?_, ?_, ?_, ?_, ?_⟩
    · rintro (htag | hmem)
      · simp only [aux_role]
        rw [if_pos (by simp [htag])]
      · simp only [aux_role]
        rw [if_pos (by simp [hmem])]
    · intro htag hmem hl
      simp only [aux_role]
      rw [if_neg (by simp [htag, hmem]), if_pos (by simp [hl])]
    · intro htag hmem hbe hvbg
      simp only [aux_role]
      rw [if_neg (by simp [htag, hmem]), if_neg (by simp [hbe]),
        if_pos (by simp [hbe, hvbg])]
    · intro htag hmem hbe hnvbg hvbn
      simp only [aux_role]
      rw [if_neg (by simp [htag, hmem]), if_neg (by simp [hbe]),
        if_neg (by simp [hnvbg]), if_pos (by simp [hbe, hvbn])]
    · intro htag hmem hdo
      simp only [aux_role]
      rw [if_neg (by simp [htag, hmem]), if_neg (by simp [hdo]),
        if_neg (by simp [hdo]), if_neg (by simp [hdo]), if_pos (by simp [hdo])]
    · intro htag hmem hhave hdo hbeimp
      by_cases hbe : a.lemma_ = "be"
      · simp only [aux_role]
        rw [if_neg (by simp [htag, hmem]), if_neg (by simp [hhave]),
          if_neg (by simp [(hbeimp hbe).1]), if_neg (by simp [(hbeimp hbe).2]),
          if_neg (by simp [hdo])]
      · simp only [aux_role]
        rw [if_neg (by simp [htag, hmem]), if_neg (by simp [hhave]),
          if_neg (by simp [hbe]), if_neg (by simp [hbe]),
          if_neg (by simp [hdo])]
  · intro d k t hget haux
    have hk : k < d.tokens.length := (List.getElem?_eq_some.mp hget).1
    refine ⟨aux_record d.tokens k t, ?_, rfl, rfl⟩
    rw [analyze_auxiliaries]
    refine List.mem_map.mpr ⟨(k, t), List.mem_filter.mpr ⟨?_, ?_⟩, rfl⟩
    · exact List.mem_enum_iff_getElem?.mpr hget
    · show (goldOf t == "auxiliary") = true
      rw [goldOf_eq_aux t haux]
      decide

/-- A parsed document ("They might wait .") with a modal auxiliary. -/
def exDocC6 : Doc :=
  { text := "They might wait .",
    tokens := [⟨"They", "they", "PRON", "PRP", "nsubj", 2, [], ""⟩,
               ⟨"might", "might", "AUX", "MD", "aux", 2, [], ""⟩,
               ⟨"wait", "wait", "VERB", "VB", "ROOT", 2, [], ""⟩,
               ⟨".", ".", "PUNCT", ".", "punct", 2, [], ""⟩],
    hasDep := true, noun_chunks := [] }

theorem C6_aux_role_witness :
    aux_role ⟨"might", "might", "AUX", "MD", "aux", 2, [], ""⟩
        ⟨"wait", "wait", "VERB", "VB", "ROOT", 2, [], ""⟩ = "modal"
      ∧ ∃ r ∈ (analyze exDocC6).auxiliaries, r.i = 1
          ∧ r.role = aux_role ⟨"might", "might", "AUX", "MD", "aux", 2, [], ""⟩
              ((exDocC6.tokens[(2 : Nat)]?).getD
                ⟨"might", "might", "AUX", "MD", "aux", 2, [], ""⟩) :=
  ⟨(C6_aux_role.1 _ _).1 (Or.inl rfl),
   C6_aux_role.2 exDocC6 1 ⟨"might", "might", "AUX", "MD", "aux", 2, [], ""⟩
     (by decide) (by decide)⟩

/-- C7: for every token whose dependency relation is clausal-complement,
open-complement, adverbial-clause or relative-clause, the clause segmenter
emits a record anchored at that token whose type is "adverbial" for advcl,
"relative" for relcl and "complement" otherwise, whose `finite` is false
exactly when the morphological verb-form feature is the infinitive, and
whose `has_marker` holds exactly when some direct child carries a
mark/complm/relcl relation. -/
theorem C7_clauses (d : Doc) (k : Nat) (t : Token)
    (hget : d.tokens[k]? = some t) (hdep : clause_dep_cond t = true) :
    ∃ c ∈ (analyze d).clauses, c.i = k
      ∧ c.type = (if t.dep = "advcl" then "adverbial"
                  else if t.dep = "relcl" then "relative" else "complement")
      ∧ (c.finite = false ↔ t.morphVerbForm = ["Inf"])
      ∧ (c.has_marker = true
          ↔ ∃ p ∈ children d.tokens k, p.2.dep ∈ ["mark", "complm", "relcl"]) := by
  refine ⟨{ i := k, text := subtree_text d.tokens k,
            type := if t.dep == "advcl" then "adverbial"
                    else if t.dep == "relcl" then "relative" else "complement",
            finite := !(t.morphVerbForm == ["Inf"]),
            has_marker := (children d.tokens k).any
              (fun p => ["mark", "complm", "relcl"].contains p.2.dep),
            why := [t.dep ++ " attached to "
                      ++ ((d.tokens[t.head]?).getD t).text ++ "."] },
    ?_, rfl, ?_, ?_, ?_⟩
  · show _ ∈ clauses_of d.tokens
    unfold clauses_of
    rw [List.mem_flatten]
    refine ⟨clause_records d.tokens k t,
      List.mem_map.mpr ⟨(k, t), List.mem_enum_iff_getElem?.mpr hget, rfl⟩, ?_⟩
    unfold clause_records
    refine List.mem_append_right _ ?_
    rw [if_pos hdep]
    exact List.mem_singleton.mpr rfl
  · by_cases h1 : t.dep = "advcl"
    · simp [h1]
    · by_cases h2 : t.dep = "relcl" <;> simp [h1, h2]
  · simp
  · simp [List.any_eq_true]

/-- A parsed document ("We stayed because it rained") with a finite
adverbial clause anchored at "rained" that has a marker child. -/
def exDocC7 : Doc :=
  { text := "We stayed because it rained",
    tokens := [⟨"We", "we", "PRON", "PRP", "nsubj", 1, [], ""⟩,
               ⟨"stayed", "stay", "VERB", "VBD", "ROOT", 1, [], ""⟩,
               ⟨"because", "because", "SCONJ", "IN", "mark", 4, [], ""⟩,
               ⟨"it", "it", "PRON", "PRP", "nsubj", 4, [], ""⟩,
               ⟨"rained", "rain", "VERB", "VBD", "advcl", 1, ["Fin"], ""⟩],
    hasDep := true, noun_chunks := [] }

theorem C7_clauses_witness :
    ∃ c ∈ (analyze exDocC7).clauses, c.i = 4
      ∧ c.type = (if ("advcl" : String) = "advcl" then "adverbial"
                  else if ("advcl" : String) = "relcl" then "relative"
                  else "complement")
      ∧ (c.finite = false ↔ (["Fin"] : List String) = ["Inf"])
      ∧ (c.has_marker = true
          ↔ ∃ p ∈ children exDocC7.tokens 4,
              p.2.dep ∈ ["mark", "complm", "relcl"]) :=
  C7_clauses exDocC7 4 ⟨"rained", "rain", "VERB", "VBD", "advcl", 1, ["Fin"], ""⟩
    (by decide) (by decide)

theorem clause_conds_exclusive (t : Token) :
    clause_root_cond t = false ∨ clause_dep_cond t = false := by
  by_cases h : t.dep = "ROOT"
  · exact Or.inr (by simp [clause_dep_cond, h])
  · exact Or.inl (by simp [clause_root_cond, h])

theorem mem_clause_records (doc : List Token) (j : Nat) (t : Token)
    (c : ClauseRecord) (hc : c ∈ clause_records doc j t) : c.i = j := by
  unfold clause_records at hc
  rcases List.mem_append.mp hc with h | h
  · split at h
    · rw [List.mem_singleton.mp h]
    · exact absurd h (List.not_mem_nil c)
  · split at h
    · rw [List.mem_singleton.mp h]
    · exact absurd h (List.not_mem_nil c)

theorem clause_records_length (doc : List Token) (j : Nat) (t : Token) :
    (clause_records doc j t).length ≤ 1 := by
  by_cases h2 : clause_root_cond t = true <;>
    by_cases h3 : clause_dep_cond t = true
  · rcases clause_conds_exclusive t with h | h
    · rw [h2] at h; cases h
    · rw [h3] at h; cases h
  · simp [clause_records, h2, h3]
  · simp [clause_records, h2, h3]
  · simp [clause_records, h2, h3]

theorem clauses_count_aux (doc : List Token) (k : Nat) :
    ∀ (l : List Token) (s : Nat),
      ((((l.enumFrom s).map (fun p => clause_records doc p.1 p.2)).flatten.filter
          (fun c => c.i == k)).length ≤ 1)
      ∧ (k < s →
          (((l.enumFrom s).map (fun p => clause_records doc p.1 p.2)).flatten.filter
            (fun c => c.i == k)) = []) := by
  intro l
  induction l with
  | nil => exact fun s => ⟨by simp, fun _ => by simp⟩
  | cons a tl ih =>
    intro s
    have hcons : (a :: tl).enumFrom s = (s, a) :: tl.enumFrom (s + 1) := rfl
    constructor
    · rw [hcons, List.map_cons, List.flatten_cons, List.filter_append,
        List.length_append]
      by_cases hks : k = s
      · have htail := (ih (s + 1)).2 (by omega)
        rw [htail]
        have hhead : ((clause_records doc s a).filter (fun c => c.i == k)).length ≤ 1 :=
          le_trans (List.length_filter_le _ _) (clause_records_length doc s a)
        simpa using hhead
      · have hhead : (clause_records doc s a).filter (fun c => c.i == k) = [] := by
          rw [List.filter_eq_nil_iff]
          intro c hc
          simp [mem_clause_records doc s a c hc, Ne.symm hks]
        rw [hhead]
        simpa using (ih (s + 1)).1
    · intro hks
      rw [hcons, List.map_cons, List.flatten_cons, List.filter_append]
      have hhead : (clause_records doc s a).filter (fun c => c.i == k) = [] := by
        rw [List.filter_eq_nil_iff]
        intro c hc
        have hi : c.i = s := mem_clause_records doc s a c hc
        have : ¬(s = k) := by omega
        simp [hi, this]
      rw [hhead, (ih (s + 1)).2 (by omega)]
      rfl

/-- C10: the independent-clause condition (dep = ROOT with verbal coarse
tag) and the dependent-clause condition (dep among
ccomp/xcomp/advcl/relcl) are mutually exclusive on a token's single `dep`
field, so the clause segmenter emits at most one clause record anchored at
any token index. -/
theorem C10_clause_unique :
    (∀ t : Token, clause_root_cond t = false ∨ clause_dep_cond t = false)
      ∧ ∀ (d : Doc) (k : Nat),
          ((analyze d).clauses.filter (fun c => c.i == k)).length ≤ 1 := by
  refine ⟨clause_conds_exclusive, fun d k => ?_⟩
  show ((clauses_of d.tokens).filter (fun c => c.i == k)).length ≤ 1
  unfold clauses_of
  exact (clauses_count_aux d.tokens k d.tokens 0).1

/-- C8: when the parse lacks dependency annotation, `analyze` skips
noun-phrase extraction and returns an empty `noun_phrases` list while the
rest of the analysis (labels, clauses, tokens) is still produced in
full. -/
theorem C8_no_dep (d : Doc) (h : d.hasDep = false) :
    (analyze d).noun_phrases = []
      ∧ (analyze d).pos_labels.length = d.tokens.length
      ∧ (analyze d).clauses = clauses_of d.tokens
      ∧ (analyze d).tokens = d.tokens.enum := by
  refine ⟨?_, ?_, rfl, rfl⟩
  · show (if d.hasDep then d.noun_chunks.map (np_record d.tokens) else []) = []
    exact if_neg (by simp [h])
  · rw [analyze_pos_labels, List.length_map, List.enum_length]

/-- A parsed document without dependency annotation but with a noun chunk,
showing the chunk is ignored. -/
def exDocC8 : Doc :=
  { text := "Dogs bark",
    tokens := [⟨"Dogs", "dog", "NOUN", "NNS", "", 0, [], ""⟩,
               ⟨"bark", "bark", "VERB", "VBP", "", 1, [], ""⟩],
    hasDep := false, noun_chunks := [⟨0, [0], "Dogs"⟩] }

theorem C8_no_dep_witness :
    (analyze exDocC8).noun_phrases = []
      ∧ (analyze exDocC8).pos_labels.length = exDocC8.tokens.length
      ∧ (analyze exDocC8).clauses = clauses_of exDocC8.tokens
      ∧ (analyze exDocC8).tokens = exDocC8.tokens.enum :=
  C8_no_dep exDocC8 rfl

theorem local_pick_mem (p : Nat) :
    ((LOCAL_SENTENCES[p % LOCAL_SENTENCES.length]?).getD "") ∈ LOCAL_SENTENCES := by
  have hlt : p % LOCAL_SENTENCES.length < LOCAL_SENTENCES.length :=
    Nat.mod_lt _ (by decide)
  rw [List.getElem?_eq_getElem hlt]
  simpa using List.getElem_mem hlt

/-- C9: whenever the external call chain does not succeed (wrong or
unreachable source, exception, missing key, empty or malformed response),
the `sentence` operation returns a sentence drawn from the fixed local
list, tagged source = "local"; the total Lean model never raises. -/
theorem C9_sentence_fallback (source : String) (tat : TatoebaOutcome)
    (key : Option String) (wn : WordnikOutcome) (pick : Nat)
    (h : external_success source tat key wn = false) :
    (sentence source tat key wn pick).source = "local"
      ∧ (sentence source tat key wn pick).text ∈ LOCAL_SENTENCES := by
  by_cases hs : source = "tatoeba"
  · subst hs
    cases tat with
    | ok txt => simp [external_success] at h
    | exn => exact ⟨rfl, local_pick_mem pick⟩
    | noResults => exact ⟨rfl, local_pick_mem pick⟩
  · by_cases hw : source = "wordnik"
    · subst hw
      cases key with
      | none => exact ⟨rfl, local_pick_mem pick⟩
      | some ks =>
        cases wn with
        | exn => exact ⟨rfl, local_pick_mem pick⟩
        | noWord => exact ⟨rfl, local_pick_mem pick⟩
        | ok base examples =>
          cases examples with
          | nil => exact ⟨rfl, local_pick_mem pick⟩
          | cons e0 rest => simp [external_success] at h
    · have heq : sentence source tat key wn pick
          = ⟨(LOCAL_SENTENCES[pick % LOCAL_SENTENCES.length]?).getD "", "local"⟩ := by
        simp only [sentence]
        rw [if_neg (by simp [hs]), if_neg (by simp [hw])]
      rw [heq]
      exact ⟨rfl, local_pick_mem pick⟩

theorem C9_sentence_fallback_witness :
    external_success "wordnik" TatoebaOutcome.exn none WordnikOutcome.exn = false
      ∧ ((sentence "wordnik" TatoebaOutcome.exn none WordnikOutcome.exn 3).source
            = "local"
        ∧ (sentence "wordnik" TatoebaOutcome.exn none WordnikOutcome.exn 3).text
            ∈ LOCAL_SENTENCES) :=
  ⟨by decide,
   C9_sentence_fallback "wordnik" TatoebaOutcome.exn none WordnikOutcome.exn 3
     (by decide)⟩

end PosTrainer
